import Mathlib

/-!
# ESP32 photo frame: interaction core, sequencer and settings store

A shallow embedding of `src/main.cpp`, `src/display.cpp` and `src/config.h`.

* Globals of `main.cpp` become the fields of `World`.
* Every function of the source that touches the globals becomes a function
  `World → … → World` with the same name.
* `unsigned long` values are naturals below `2^32`; subtraction wraps (`usub`).
  `int` values are integers; conversions between `int` and the unsigned
  32-bit `size_t` are explicit (`toU32`, `toI32`).
* Hardware and library collaborators are inputs: the button level and the
  `millis()` reads of a tick (`Reads`), the raw values of the random generator
  (`World.entropy`), the SD card (`SDCard`).
* Calls into the display, the backlight and the card are recorded in
  `World.log`, in program order, so that theorems can talk about them.
-/

namespace PhotoFrame

/-! ## config.h -/

def INTERVAL_DEFAULT_INDEX : Int := 2
def SHORT_PRESS_TIME : Nat := 50
def LONG_PRESS_TIME : Nat := 500
def MENU_TIMEOUT : Nat := 10000
def SETTING_TIMEOUT : Nat := 5000
def MAX_BRIGHTNESS : Int := 255
def MIN_BRIGHTNESS : Int := 20
def BRIGHTNESS_STEP : Int := 10
def BRIGHTNESS_DEFAULT : Nat := 128

/-! ## Constants of main.cpp -/

/-- The table `intervals[]` (milliseconds). -/
def intervals : List Nat := [5000, 30000, 60000, 300000, 900000, 1800000, 3600000]

/-- The expression `sizeof(intervals) / sizeof(intervals[0])`, a `size_t`. -/
def intervalCount : Nat := intervals.length

/-- The read `intervals[i]`; every caller has `0 ≤ i < 7` (see `IndexInv`). -/
def intervalAt (i : Int) : Nat := intervals.getD i.toNat 0

/-- The global `menuItemCount`; the source never assigns it. -/
def menuItemCount : Int := 4

def MESSAGE_DURATION : Nat := 2000

/-- Button levels of `digitalRead`. -/
abbrev HIGH : Bool := true
abbrev LOW : Bool := false

/-! ## Machine arithmetic -/

def two32 : Nat := 4294967296

/-- Subtraction of two `unsigned long` values (32 bits on the ESP32). -/
def usub (a b : Nat) : Nat := (a % 4294967296 + 4294967296 - b % 4294967296) % 4294967296

/-- Conversion of an `int` to the unsigned 32-bit type. -/
def toU32 (x : Int) : Nat := (x % 4294967296).toNat

/-- Conversion of an unsigned 32-bit value back to `int`. -/
def toI32 (n : Nat) : Int :=
  if n % 4294967296 < 2147483648 then ((n % 4294967296 : Nat) : Int)
  else ((n % 4294967296 : Nat) : Int) - 4294967296

/-- Conversion of an `int` to `uint8_t`. -/
def toU8 (x : Int) : Nat := (x % 256).toNat

/-! ## Text helpers (Arduino `String`) -/

def digitChar (d : Nat) : Char := Char.ofNat (48 + d)

/-- Decimal digits of `n`, most significant first; `fuel` bounds the number of digits. -/
def decimalDigits : Nat → Nat → List Char
  | 0, _ => []
  | fuel + 1, n =>
    if n < 10 then [digitChar n] else decimalDigits fuel (n / 10) ++ [digitChar (n % 10)]

/-- The text `Print::print(n)` / `String(n)` produce for an unsigned value. -/
def printNat (n : Nat) : String := String.mk (decimalDigits (n + 1) n)

/-- The text `Print::print(x)` produces for an `int`. -/
def printInt (x : Int) : String :=
  if x < 0 then String.mk ('-' :: decimalDigits (x.natAbs + 1) x.natAbs) else printNat x.toNat

/-- The C `isspace` of the "C" locale. -/
def isSpace (c : Char) : Bool :=
  c = ' ' || c = '\t' || c = '\n' || c = '\r' || c.toNat = 11 || c.toNat = 12

/-- Accumulates the leading decimal digits of a text. -/
def digitsValue : Nat → List Char → Nat
  | acc, [] => acc
  | acc, c :: cs => if c.isDigit then digitsValue (acc * 10 + (c.toNat - 48)) cs else acc

/-- The value of `atol` after white space has been skipped: sign, digits, and
the saturation of `strtol` to the range of a 32-bit `long`. -/
def parseSigned : List Char → Int
  | '-' :: cs => max (-(digitsValue 0 cs : Int)) (-2147483648)
  | '+' :: cs => min (digitsValue 0 cs : Int) 2147483647
  | cs => min (digitsValue 0 cs : Int) 2147483647

/-- Arduino `String::toInt()`, which is `atol` on the buffer: leading white
space is skipped, an optional sign and the leading decimal digits are read, and
a text without a leading number gives `0`. -/
def toInt (s : String) : Int := parseSigned (s.data.dropWhile isSpace)

/-! ## Observable effects -/

/-- The calls the core makes into its collaborators, and the two handler entries. -/
inductive Effect where
  | handleShortPress
  | handleLongPress
  | showMainMenu (itemCount : Int) (selected : Int)
  | showIntervalSetting (interval : Nat)
  | showBrightnessSetting (brightness : Nat)
  | showSystemInfo
  | drawImage (path : String)
  | imageNotDrawn (path : String)
  | noImagesScreen
  | showMessage (text : String)
  | ledcWrite (level : Nat)
  | saveIntervalToSD (index : Int) (written : Bool)
  | saveBrightnessToSD (brightness : Nat) (written : Bool)
  | loadingScreen
  | errorScreen (text : String)
  deriving DecidableEq, Repr

/-! ## The SD card -/

/-- What the SD library answers: whether `SD.exists("/")` holds, the content of
the two settings files when they exist, and whether `SD.open` yields a valid
file for reading and for writing. -/
structure SDCard where
  available : Bool
  intervalFile : Option String
  brightnessFile : Option String
  readOk : Bool
  writeOk : Bool
  deriving DecidableEq, Repr

/-! ## The globals of main.cpp -/

inductive SystemState where
  | STATE_SLIDESHOW
  | STATE_MENU
  | STATE_SETTING_INTERVAL
  | STATE_SETTING_BRIGHTNESS
  | STATE_INFO
  deriving DecidableEq, Repr

open SystemState

structure World where
  imageFiles : List String
  shuffledIndices : List Int
  currentImageIndex : Int
  currentShuffleIndex : Nat
  lastImageChange : Nat
  currentIntervalIndex : Int
  slideshowInterval : Nat
  currentBrightness : Nat
  currentState : SystemState
  selectedMenuItem : Int
  menuLastInteraction : Nat
  fatalError : Bool
  errorMessage : String
  lastButtonState : Bool
  buttonPressed : Bool
  buttonPressTime : Nat
  buttonReleaseTime : Nat
  longPressTriggered : Bool
  messageStartTime : Nat
  showingMessage : Bool
  currentMessage : String
  showingLoading : Bool
  sd : SDCard
  /-- The raw values the random generator will produce, in order. -/
  entropy : Nat → Nat
  /-- How many raw values have been consumed. -/
  draws : Nat
  log : List Effect

/-- The static initialisers of the globals, for a given card and generator. -/
def boot (sd : SDCard) (entropy : Nat → Nat) : World where
  imageFiles := []
  shuffledIndices := []
  currentImageIndex := 0
  currentShuffleIndex := 0
  lastImageChange := 0
  currentIntervalIndex := INTERVAL_DEFAULT_INDEX
  slideshowInterval := intervalAt INTERVAL_DEFAULT_INDEX
  currentBrightness := BRIGHTNESS_DEFAULT
  currentState := STATE_SLIDESHOW
  selectedMenuItem := 0
  menuLastInteraction := 0
  fatalError := false
  errorMessage := ""
  lastButtonState := HIGH
  buttonPressed := false
  buttonPressTime := 0
  buttonReleaseTime := 0
  longPressTriggered := false
  messageStartTime := 0
  showingMessage := false
  currentMessage := ""
  showingLoading := false
  sd := sd
  entropy := entropy
  draws := 0
  log := []

/-- Appends one effect to the log. -/
def emit (w : World) (e : Effect) : World := { w with log := w.log ++ [e] }

/-! ## The sequencer -/

/-- Arduino `random(lo, hi)` applied to the next raw value `raw` of the
generator: `lo` when the range is empty, else `lo + raw mod (hi - lo)`. Every
value of `lo .. hi - 1` is the result for some raw value. -/
def randomIn (raw : Nat) (lo hi : Int) : Int :=
  if lo ≥ hi then lo else lo + ((raw : Int) % (hi - lo))

/-- The call `std::swap(v[i], v[j])` on a vector. -/
def swapAt (v : List Int) (i j : Nat) : List Int :=
  (v.set i (v.getD j 0)).set j (v.getD i 0)

/-- The loop `for (int i = size - 1; i > 0; i--) { j = random(0, i + 1); swap }`,
entered with loop variable `i`; `k` counts the raw values consumed so far. -/
def shuffleFrom (entropy : Nat → Nat) : Nat → Nat → List Int → Nat × List Int
  | 0, k, v => (k, v)
  | i + 1, k, v =>
    shuffleFrom entropy i (k + 1) (swapAt v (i + 1) (randomIn (entropy k) 0 (i + 2)).toNat)

/-- The Fisher–Yates pass shared by `initRandomSlideshow` and `getNextRandomImage`. -/
def reshuffle (w : World) : World :=
  let r := shuffleFrom w.entropy (w.shuffledIndices.length - 1) w.draws w.shuffledIndices
  { w with shuffledIndices := r.2, draws := r.1 }

def initRandomSlideshow (w : World) : World :=
  if w.imageFiles.isEmpty then w
  else
    let w1 := { w with shuffledIndices := (List.range w.imageFiles.length).map Int.ofNat }
    { reshuffle w1 with currentShuffleIndex := 0 }

/-- Returns `none` when the read `shuffledIndices[currentShuffleIndex]` is out
of bounds (undefined behaviour in the source). -/
def getNextRandomImage (w : World) : Option (Int × World) :=
  if w.imageFiles.isEmpty then some (0, w)
  else
    match w.shuffledIndices.get? w.currentShuffleIndex with
    | none => none
    | some imageIndex =>
      let w1 := { w with currentShuffleIndex := w.currentShuffleIndex + 1 }
      if w1.currentShuffleIndex ≥ w1.shuffledIndices.length then
        some (imageIndex, { reshuffle w1 with currentShuffleIndex := 0 })
      else some (imageIndex, w1)

/-- The results of `n` successive calls of `getNextRandomImage`. -/
def nextImages : Nat → World → Option (List Int × World)
  | 0, w => some ([], w)
  | n + 1, w =>
    match getNextRandomImage w with
    | none => none
    | some (i, w1) =>
      match nextImages n w1 with
      | none => none
      | some (is, w2) => some (i :: is, w2)

/-! ## Clock and button inputs of one tick -/

/-- What the hardware answers during one pass of `loop`: the button level and
the value of each `millis()` read, one field per call site that can be reached. -/
structure Reads where
  /-- The value of `digitalRead(BOOT_BUTTON_PIN)`. -/
  level : Bool
  /-- The read `now = millis()` at the start of `processButtonInput`. -/
  now : Nat
  /-- The read `menuLastInteraction = millis()` of a handler. -/
  handler : Nat
  /-- The read `messageStartTime = millis()` of `showMessage`. -/
  notice : Nat
  /-- The read `lastImageChange = millis()` made during a handler. -/
  image : Nat
  /-- The read of `displayImage` when the menu timeout leaves the menu. -/
  timeoutImage : Nat
  /-- The read of the notice expiry test of `loop`. -/
  noticeCheck : Nat
  /-- The read of `displayImage` called by `hideMessage`. -/
  hideImage : Nat
  /-- The read of the interval test of `loop`. -/
  slideCheck : Nat
  /-- The read of `displayImage` called by `loop`. -/
  slideImage : Nat

/-! ## display.cpp -/

def set_brightness (w : World) (level : Nat) : World :=
  let level := if (level : Int) < MIN_BRIGHTNESS then toU8 MIN_BRIGHTNESS else level
  let level := if (level : Int) > MAX_BRIGHTNESS then toU8 MAX_BRIGHTNESS else level
  emit w (.ledcWrite level)

/-! ## Rendering requests -/

/-- Arduino `String::endsWith`, case-sensitive. -/
def endsWith (s suffix : String) : Bool := suffix.data.isSuffixOf s.data

/-- The two clamps of `displayImage`: `if (index < 0) index = 0;` and
`if (index >= imageFiles.size()) index = imageFiles.size() - 1;` for a list of
`n` images (the second comparison is unsigned). -/
def clampIndex (n : Nat) (index : Int) : Int :=
  let index := if index < 0 then 0 else index
  if toU32 index ≥ n then toI32 (n - 1) else index

/-- The block of `displayImage` guarded by the extension test: the image is
decoded and drawn only when the path ends in `.jpg` or `.jpeg`. -/
def drawJpeg (w : World) (path : String) : World :=
  emit w (if endsWith path ".jpg" || endsWith path ".jpeg" then .drawImage path
    else .imageNotDrawn path)

def displayImage (w : World) (index : Int) (t : Nat) : World :=
  if w.imageFiles.isEmpty then w
  else
    let w1 := { w with currentImageIndex := clampIndex w.imageFiles.length index }
    let path := w1.imageFiles.getD w1.currentImageIndex.toNat ""
    { drawJpeg w1 path with lastImageChange := t }

def showMessage (w : World) (message : String) (t : Nat) : World :=
  if w.showingLoading || w.currentState ≠ STATE_SLIDESHOW then w
  else
    { emit w (.showMessage message) with
      currentMessage := message, showingMessage := true, messageStartTime := t }

def hideMessage (w : World) (t : Nat) : World :=
  if w.showingMessage then
    let w1 :=
      if !w.imageFiles.isEmpty && w.currentState = STATE_SLIDESHOW then
        displayImage w w.currentImageIndex t
      else w
    { w1 with showingMessage := false, currentMessage := "" }
  else w

def showMainMenu (w : World) : World := emit w (.showMainMenu menuItemCount w.selectedMenuItem)

def showIntervalSetting (w : World) : World := emit w (.showIntervalSetting w.slideshowInterval)

def showBrightnessSetting (w : World) : World :=
  emit w (.showBrightnessSetting w.currentBrightness)

def showSystemInfo (w : World) : World := emit w .showSystemInfo

def exitToSlideshow (w : World) (t : Nat) : World :=
  let w1 := { w with currentState := STATE_SLIDESHOW }
  if !w1.imageFiles.isEmpty then displayImage w1 w1.currentImageIndex t
  else emit w1 .noImagesScreen

/-! ## Settings store -/

def saveIntervalToSD (w : World) : World :=
  if !w.sd.available then emit w (.saveIntervalToSD w.currentIntervalIndex false)
  else if w.sd.writeOk then
    emit { w with sd := { w.sd with intervalFile := some (printInt w.currentIntervalIndex) } }
      (.saveIntervalToSD w.currentIntervalIndex true)
  else emit w (.saveIntervalToSD w.currentIntervalIndex false)

/-- The three fallback branches of `loadIntervalFromSD` that end in a save. -/
def defaultInterval (w : World) : World :=
  saveIntervalToSD
    { w with currentIntervalIndex := INTERVAL_DEFAULT_INDEX,
             slideshowInterval := intervalAt INTERVAL_DEFAULT_INDEX }

def loadIntervalFromSD (w : World) : World :=
  if !w.sd.available then
    { w with currentIntervalIndex := INTERVAL_DEFAULT_INDEX,
             slideshowInterval := intervalAt INTERVAL_DEFAULT_INDEX }
  else
    match w.sd.intervalFile with
    | some intervalStr =>
      if w.sd.readOk then
        let savedIndex := toInt intervalStr
        if savedIndex ≥ 0 && toU32 savedIndex < intervalCount then
          { w with currentIntervalIndex := savedIndex, slideshowInterval := intervalAt savedIndex }
        else defaultInterval w
      else defaultInterval w
    | none => defaultInterval w

def saveBrightnessToSD (w : World) : World :=
  if !w.sd.available then emit w (.saveBrightnessToSD w.currentBrightness false)
  else if w.sd.writeOk then
    emit { w with sd := { w.sd with brightnessFile := some (printNat w.currentBrightness) } }
      (.saveBrightnessToSD w.currentBrightness true)
  else emit w (.saveBrightnessToSD w.currentBrightness false)

/-- The three fallback branches of `loadBrightnessFromSD` that end in a save. -/
def defaultBrightness (w : World) : World :=
  let w1 := { w with currentBrightness := BRIGHTNESS_DEFAULT }
  saveBrightnessToSD (set_brightness w1 w1.currentBrightness)

def loadBrightnessFromSD (w : World) : World :=
  if !w.sd.available then
    let w1 := { w with currentBrightness := BRIGHTNESS_DEFAULT }
    set_brightness w1 w1.currentBrightness
  else
    match w.sd.brightnessFile with
    | some brightnessStr =>
      if w.sd.readOk then
        let savedBrightness := toInt brightnessStr
        if savedBrightness ≥ MIN_BRIGHTNESS && savedBrightness ≤ MAX_BRIGHTNESS then
          let w1 := { w with currentBrightness := toU8 savedBrightness }
          set_brightness w1 w1.currentBrightness
        else defaultBrightness w
      else defaultBrightness w
    | none => defaultBrightness w

/-! ## Adjusting the settings -/

/-- The text shown for an interval: seconds below one minute, else minutes. -/
def intervalText (interval : Nat) : String :=
  if interval < 60000 then printNat (interval / 1000) ++ " sec"
  else printNat (interval / 60000) ++ " min"

def changeInterval (w : World) (tNotice tImage : Nat) : World :=
  let w1 := { w with currentIntervalIndex := toI32 (toU32 (w.currentIntervalIndex + 1) % intervalCount) }
  let w2 := { w1 with slideshowInterval := intervalAt w1.currentIntervalIndex }
  let w3 := saveIntervalToSD w2
  let w4 := showMessage w3 ("Interval: " ++ intervalText w3.slideshowInterval) tNotice
  { w4 with lastImageChange := tImage }

def adjustInterval (w : World) (direction : Int) : World :=
  let w1 :=
    if direction > 0 then
      { w with currentIntervalIndex := toI32 (toU32 (w.currentIntervalIndex + 1) % intervalCount) }
    else
      { w with currentIntervalIndex :=
          toI32 (((toU32 (w.currentIntervalIndex - 1) + intervalCount) % two32) % intervalCount) }
  let w2 := { w1 with slideshowInterval := intervalAt w1.currentIntervalIndex }
  showIntervalSetting (saveIntervalToSD w2)

/-- The first three statements of `adjustBrightness`: the step and the two clamps. -/
def steppedBrightness (currentBrightness : Nat) (direction : Int) : Int :=
  let newBrightness : Int :=
    (currentBrightness : Int) + (if direction > 0 then BRIGHTNESS_STEP else -BRIGHTNESS_STEP)
  let newBrightness := if newBrightness < MIN_BRIGHTNESS then MIN_BRIGHTNESS else newBrightness
  if newBrightness > MAX_BRIGHTNESS then MAX_BRIGHTNESS else newBrightness

def adjustBrightness (w : World) (direction : Int) : World :=
  let newBrightness := steppedBrightness w.currentBrightness direction
  if newBrightness ≠ (w.currentBrightness : Int) then
    let w1 := { w with currentBrightness := toU8 newBrightness }
    showBrightnessSetting (saveBrightnessToSD (set_brightness w1 w1.currentBrightness))
  else w

/-! ## Button handling -/

/-- The first statement of both handlers, `menuLastInteraction = millis()`,
with the entry into the handler recorded in the log. -/
def enterHandler (w : World) (entry : Effect) (t : Nat) : World :=
  { emit w entry with menuLastInteraction := t }

def handleShortPress (w : World) (r : Reads) : World :=
  let w := enterHandler w .handleShortPress r.handler
  match w.currentState with
  | STATE_SLIDESHOW => showMainMenu { w with currentState := STATE_MENU }
  | STATE_MENU =>
    if w.selectedMenuItem = 0 then showIntervalSetting { w with currentState := STATE_SETTING_INTERVAL }
    else if w.selectedMenuItem = 1 then
      showBrightnessSetting { w with currentState := STATE_SETTING_BRIGHTNESS }
    else if w.selectedMenuItem = 2 then showSystemInfo { w with currentState := STATE_INFO }
    else if w.selectedMenuItem = 3 then exitToSlideshow w r.image
    else w
  | STATE_SETTING_INTERVAL => adjustInterval w 1
  | STATE_SETTING_BRIGHTNESS => adjustBrightness w 1
  | STATE_INFO => showMainMenu { w with currentState := STATE_MENU }

def handleLongPress (w : World) (r : Reads) : World :=
  let w := enterHandler w .handleLongPress r.handler
  match w.currentState with
  | STATE_SLIDESHOW => changeInterval w r.notice r.image
  | STATE_MENU =>
    showMainMenu { w with selectedMenuItem := (w.selectedMenuItem + 1).tmod menuItemCount }
  | STATE_SETTING_INTERVAL => adjustInterval w (-1)
  | STATE_SETTING_BRIGHTNESS => adjustBrightness w (-1)
  | STATE_INFO => exitToSlideshow w r.image

/-- The block "Detect button press". -/
def detectPress (w : World) (r : Reads) : World :=
  if r.level = LOW && w.lastButtonState = HIGH then
    { w with buttonPressed := true, buttonPressTime := r.now, buttonReleaseTime := 0,
             longPressTriggered := false }
  else w

/-- The duration test inside "Detect button release": a short press is
dispatched for a hold longer than `SHORT_PRESS_TIME`, shorter than
`LONG_PRESS_TIME`, during which no long press fired. -/
def dispatchRelease (w : World) (r : Reads) : World :=
  let pressDuration := usub w.buttonReleaseTime w.buttonPressTime
  if pressDuration > SHORT_PRESS_TIME then
    if !w.longPressTriggered && pressDuration < LONG_PRESS_TIME then handleShortPress w r
    else w
  else w

/-- The block "Detect button release". -/
def detectRelease (w : World) (r : Reads) : World :=
  if r.level = HIGH && w.lastButtonState = LOW && w.buttonPressed then
    let w1 := { w with buttonReleaseTime := r.now }
    { dispatchRelease w1 r with buttonPressed := false, longPressTriggered := false }
  else w

/-- The block "Detect long press while holding". -/
def detectLongPress (w : World) (r : Reads) : World :=
  if w.buttonPressed && !w.longPressTriggered && usub r.now w.buttonPressTime > LONG_PRESS_TIME then
    handleLongPress { w with longPressTriggered := true } r
  else w

/-- The block "Check timeout for settings screens". -/
def settingTimeout (w : World) (r : Reads) : World :=
  if w.currentState = STATE_SETTING_INTERVAL || w.currentState = STATE_SETTING_BRIGHTNESS then
    if usub r.now w.menuLastInteraction > SETTING_TIMEOUT then
      showMainMenu { w with currentState := STATE_MENU }
    else w
  else w

/-- The block "Check timeout for main menu". -/
def menuTimeout (w : World) (r : Reads) : World :=
  if w.currentState = STATE_MENU then
    if usub r.now w.menuLastInteraction > MENU_TIMEOUT then exitToSlideshow w r.timeoutImage
    else w
  else w

/-- The three edge and hold blocks of `processButtonInput`, up to the update of
`lastButtonState`. -/
def classifyButton (w : World) (r : Reads) : World :=
  { detectLongPress (detectRelease (detectPress w r) r) r with lastButtonState := r.level }

def processButtonInput (w : World) (r : Reads) : World :=
  menuTimeout (settingTimeout (classifyButton w r) r) r

/-! ## The main loop -/

/-- The block "Handle messages" of `loop`. -/
def expireNotice (w : World) (r : Reads) : World :=
  if w.showingMessage && usub r.noticeCheck w.messageStartTime ≥ MESSAGE_DURATION then
    hideMessage w r.hideImage
  else w

/-- The block "Handle slideshow" of `loop`; `none` when `getNextRandomImage`
reads out of bounds. -/
def advanceSlideshow (w : World) (r : Reads) : Option World :=
  if !w.fatalError && w.currentState = STATE_SLIDESHOW && !w.imageFiles.isEmpty
      && !w.showingMessage then
    if usub r.slideCheck w.lastImageChange ≥ w.slideshowInterval then
      match getNextRandomImage w with
      | none => none
      | some (nextImageIndex, w1) => some (displayImage w1 nextImageIndex r.slideImage)
    else some w
  else some w

def loop (w : World) (r : Reads) : Option World :=
  advanceSlideshow (expireNotice (processButtonInput w r) r) r

/-! ## Start-up -/

/-- One entry of the root directory of the card. -/
structure DirEntry where
  name : String
  isDirectory : Bool
  deriving DecidableEq, Repr

/-- What the hardware answers during `setup`. -/
structure SetupInputs where
  /-- Whether `SD.begin` succeeded and a card is attached. -/
  cardOk : Bool
  /-- Whether `SD.open("/")` yields a valid directory. -/
  rootOpens : Bool
  /-- The entries `openNextFile` yields, in order. -/
  entries : List DirEntry
  /-- The read of `displayImage` for the first image. -/
  firstImage : Nat

def lowerCase (cs : List Char) : List Char := cs.map Char.toLower

/-- Arduino `String::equalsIgnoreCase`. -/
def equalsIgnoreCase (a b : String) : Bool := lowerCase a.data == lowerCase b.data

def isSystemFile (filename : String) : Bool :=
  if "._".data.isPrefixOf filename.data then true
  else if equalsIgnoreCase filename ".DS_Store" then true
  else if equalsIgnoreCase filename "Thumbs.db" then true
  else if equalsIgnoreCase filename "desktop.ini" then true
  else false

/-- The text from the last occurrence of `c` on, if `c` occurs. -/
def fromLast (c : Char) : List Char → Option (List Char)
  | [] => none
  | x :: xs =>
    match fromLast c xs with
    | some r => some r
    | none => if x = c then some (x :: xs) else none

/-- The expression `filename.substring(filename.lastIndexOf('.'))`, lower-cased:
without a dot `lastIndexOf` is `-1`, which `substring` takes as an index past
the end, and the result is empty. -/
def extensionOf (filename : String) : String :=
  String.mk (lowerCase ((fromLast '.' filename.data).getD []))

/-- The entries `countTotalFiles` counts and the scan of `findImageFiles` visits. -/
def regularFiles (entries : List DirEntry) : List DirEntry :=
  entries.filter fun e => !e.isDirectory && !isSystemFile e.name

def findImageFiles (w : World) (i : SetupInputs) : World :=
  if !i.rootOpens then w
  else
    let w1 := { w with imageFiles := [] }
    if (regularFiles i.entries).length = 0 then w1
    else
      let images := (regularFiles i.entries).filter fun e =>
        extensionOf e.name = ".jpg" || extensionOf e.name = ".jpeg"
      { w1 with imageFiles := images.map fun e => "/" ++ e.name }

def initSDCard (w : World) (i : SetupInputs) : Bool × World :=
  if !i.cardOk then (false, w)
  else (true, loadBrightnessFromSD (loadIntervalFromSD w))

def hideLoadingScreen (w : World) : World := { w with showingLoading := false }

/-- The branch of `setup` taken when the card was initialised: scan for
images, then either start the slideshow with the first image of the shuffled
order or record the fatal error. -/
def setupImages (w : World) (i : SetupInputs) : World :=
  let w := findImageFiles w i
  if !w.imageFiles.isEmpty then
    let w := hideLoadingScreen (initRandomSlideshow w)
    let firstImageIndex := w.shuffledIndices.getD w.currentShuffleIndex 0
    let w := displayImage w firstImageIndex i.firstImage
    { w with currentShuffleIndex := w.currentShuffleIndex + 1 }
  else { w with errorMessage := "No JPEG images found on SD card", fatalError := true }

/-- The block "Show error if any" of `setup`. -/
def showFatalError (w : World) : World :=
  if w.fatalError then emit (hideLoadingScreen w) (.errorScreen w.errorMessage) else w

def setup (w : World) (i : SetupInputs) : World :=
  let w := emit { w with showingLoading := true } .loadingScreen
  let w :=
    if (initSDCard w i).1 then setupImages (initSDCard w i).2 i
    else { (initSDCard w i).2 with
            errorMessage := "SD card initialization failed", fatalError := true }
  let w := showFatalError w
  if w.showingLoading then hideLoadingScreen w else w

/-- The states the device can be in: `setup` from the static initialisers, then
any number of passes of `loop`; the card is removable, so its content may
change between two passes. -/
inductive Reachable : World → Prop where
  | start (sd : SDCard) (entropy : Nat → Nat) (i : SetupInputs) :
      Reachable (setup (boot sd entropy) i)
  | tick (w : World) (r : Reads) (w1 : World) : Reachable w → loop w r = some w1 → Reachable w1
  | card (w : World) (sd : SDCard) : Reachable w → Reachable { w with sd := sd }

/-! ## Observations on the log -/

/-- Number of `handleShortPress` entries in a log. -/
def shortPresses (log : List Effect) : Nat := log.count .handleShortPress

/-- Number of `handleLongPress` entries in a log. -/
def longPresses (log : List Effect) : Nat := log.count .handleLongPress

/-- Runs `processButtonInput` over a list of ticks. -/
def runTicks (w : World) : List Reads → World
  | [] => w
  | r :: rs => runTicks (processButtonInput w r) rs

/-- No tick of the list sees a falling edge of the button, `last` being the
level sampled before the first tick. -/
def noFallingEdge : Bool → List Reads → Bool
  | _, [] => true
  | last, r :: rs => !(r.level = LOW && last = HIGH) && noFallingEdge r.level rs

/-- Handler entries in a log, of either kind. -/
def handlerCalls (log : List Effect) : Nat := shortPresses log + longPresses log

/-- How many handler calls the current press can still cause: one while the
button is recorded as pressed and the long press has not fired, else none. -/
def pendingCalls (w : World) : Nat :=
  if w.buttonPressed && !w.longPressTriggered then 1 else 0

/-- `w1` comes from `w` by steps that touch neither the button variables nor
enter a handler. -/
structure Quiet (w w1 : World) : Prop where
  last : w1.lastButtonState = w.lastButtonState
  pressed : w1.buttonPressed = w.buttonPressed
  time : w1.buttonPressTime = w.buttonPressTime
  triggered : w1.longPressTriggered = w.longPressTriggered
  short : shortPresses w1.log = shortPresses w.log
  long : longPresses w1.log = longPresses w.log

/-! ## Sample inputs used by the worked examples -/

/-- A card that is present, with valid settings files. -/
def sampleCard : SDCard :=
  { available := true, intervalFile := some "3", brightnessFile := some "128",
    readOk := true, writeOk := true }

/-- A generator whose raw values are `3, 10, 17, …`. -/
def sampleEntropy (k : Nat) : Nat := k * 7 + 3

/-- A root directory with three images, a directory and a text file. -/
def sampleInputs : SetupInputs :=
  { cardOk := true, rootOpens := true,
    entries := [⟨"a.jpg", false⟩, ⟨"b.jpg", false⟩, ⟨"DCIM", true⟩, ⟨"c.jpeg", false⟩,
      ⟨"notes.txt", false⟩],
    firstImage := 900 }

/-- The device after `setup` on the sample inputs. -/
def started : World := setup (boot sampleCard sampleEntropy) sampleInputs

/-- A tick in which every clock read returns `t`. -/
def readsAt (level : Bool) (t : Nat) : Reads :=
  { level := level, now := t, handler := t, notice := t, image := t, timeoutImage := t,
    noticeCheck := t, hideImage := t, slideCheck := t, slideImage := t }

/-- Runs `loop` over a list of ticks; `none` if a pass reads out of bounds. -/
def runLoop (w : World) : List Reads → Option World
  | [] => some w
  | r :: rs =>
    match loop w r with
    | none => none
    | some w1 => runLoop w1 rs

/-- The device after `setup` when the card stores brightness 250. -/
def startedBright : World :=
  setup (boot { sampleCard with brightnessFile := some "250" } sampleEntropy) sampleInputs

/-- A short press (menu), a long press (second item) and a short press (select):
from the slideshow into the brightness screen. -/
def toBrightnessScreen : List Reads :=
  [readsAt LOW 1000, readsAt HIGH 1100, readsAt LOW 2000, readsAt LOW 2600, readsAt HIGH 2700,
    readsAt LOW 3000, readsAt HIGH 3100]

/-- A short press (menu), a long press (second item), then no input until the
menu timeout returns to the slideshow. -/
def menuVisit : List Reads :=
  [readsAt LOW 1000, readsAt HIGH 1100, readsAt LOW 2000, readsAt LOW 2600, readsAt HIGH 2700,
    readsAt HIGH 13000]

/-- The interval index is within the table and so is every index that
`saveIntervalToSD` was called with. -/
def IndexInv (w : World) : Prop :=
  (0 ≤ w.currentIntervalIndex ∧ w.currentIntervalIndex ≤ 6) ∧
  ∀ (v : Int) (b : Bool), Effect.saveIntervalToSD v b ∈ w.log → 0 ≤ v ∧ v ≤ 6

/-- `w1` comes from `w` by steps that neither change the interval index nor
call `saveIntervalToSD`. -/
structure KeepsIndex (w w1 : World) : Prop where
  index : w1.currentIntervalIndex = w.currentIntervalIndex
  saves : ∀ (v : Int) (b : Bool), Effect.saveIntervalToSD v b ∈ w1.log →
    Effect.saveIntervalToSD v b ∈ w.log

/-- The sample card with an interval file that holds no number. -/
def cardUnparseable : SDCard := { sampleCard with intervalFile := some "abc" }

/-- The sample card with an empty interval file. -/
def cardEmptyFile : SDCard := { sampleCard with intervalFile := some "" }

/-- The sample card with a brightness file that holds no number. -/
def cardBrightnessUnparseable : SDCard := { sampleCard with brightnessFile := some "abc" }

/-- A root directory with a single image, named as cameras name them. -/
def singleUpperCase : SetupInputs :=
  { cardOk := true, rootOpens := true, entries := [⟨"IMG_0001.JPG", false⟩], firstImage := 900 }

/-- A root directory with a single image. -/
def singleImage : SetupInputs :=
  { cardOk := true, rootOpens := true, entries := [⟨"a.jpg", false⟩], firstImage := 900 }

/-- The release tick of a press, sampled at 1100, in which the millisecond
counter advances to 1101 before the handler reads it. -/
def lateRelease : Reads := { readsAt HIGH 1100 with handler := 1101 }

/-- The same in the brightness screen: sampled at 4100, handler read 4101. -/
def lateReleaseInScreen : Reads := { readsAt HIGH 4100 with handler := 4101 }

/-- A long press in the slideshow (the notice starts at 1600), its release, and
the falling edge of the next press. -/
def firstNotice : List Reads :=
  [readsAt LOW 1000, readsAt LOW 1600, readsAt HIGH 1700, readsAt LOW 1800]

/-- `w1` comes from `w` by steps that leave the image list, the sequencer, the
generator, the loading flag and the fatal-error flag alone. -/
structure KeepsSequencer (w w1 : World) : Prop where
  images : w1.imageFiles = w.imageFiles
  order : w1.shuffledIndices = w.shuffledIndices
  cursor : w1.currentShuffleIndex = w.currentShuffleIndex
  draws : w1.draws = w.draws
  source : w1.entropy = w.entropy
  loading : w1.showingLoading = w.showingLoading
  fatal : w1.fatalError = w.fatalError

/-- Two short presses: from the slideshow into the menu and on into the
interval screen, entered at 2100. -/
def toIntervalScreen : List Reads :=
  [readsAt LOW 1000, readsAt HIGH 1100, readsAt LOW 2000, readsAt HIGH 2100]

/-- The state of a pass of `loop` after its button and notice handling, on
which the block "Handle slideshow" decides. -/
def afterInput (w : World) (r : Reads) : World := expireNotice (processButtonInput w r) r

/-- The sequencer is consistent with the image list: without images nothing is
required; with images the vector has one entry per image and the cursor is
inside it, except in the one configuration `setup` leaves for a single image,
cursor 1 on a vector of length 1. -/
def SeqInv (w : World) : Prop :=
  w.imageFiles = [] ∨
  (w.shuffledIndices.length = w.imageFiles.length ∧
    (w.currentShuffleIndex < w.shuffledIndices.length ∨
      (w.imageFiles.length = 1 ∧ w.currentShuffleIndex = 1)))

/-! # Theorems -/

set_option maxRecDepth 8000

/-! ## Sequencer -/

theorem swapAt_length (v : List Int) (i j : Nat) : (swapAt v i j).length = v.length := by
  simp [swapAt]

/-- Swapping two positions of a vector rearranges it. -/
theorem swapAt_perm (v : List Int) (i j : Nat) (hi : i < v.length) (hj : j < v.length) :
    (swapAt v i j).Perm v := by
  have key : swapAt v i j =
      List.ofFn ((fun k : Fin v.length => v.get k) ∘
        (Equiv.swap (⟨i, hi⟩ : Fin v.length) ⟨j, hj⟩)) := by
    apply List.ext_getElem
    · simp [swapAt]
    · intro n h1 h2
      simp only [swapAt, List.getElem_set, List.getElem_ofFn, Function.comp, List.get_eq_getElem,
        List.getD_eq_getElem?_getD, List.getElem?_eq_getElem hi, List.getElem?_eq_getElem hj,
        Option.getD_some]
      by_cases hnj : j = n
      · subst hnj
        simp [Equiv.swap_apply_right]
      · by_cases hni : i = n
        · subst hni
          simp [hnj, Equiv.swap_apply_left]
        · have h3 : n < v.length := by simpa [swapAt] using h1
          have : Equiv.swap (⟨i, hi⟩ : Fin v.length) ⟨j, hj⟩ ⟨n, h3⟩ = ⟨n, h3⟩ := by
            apply Equiv.swap_apply_of_ne_of_ne
            · intro h; exact hni (by simpa using (congrArg Fin.val h).symm)
            · intro h; exact hnj (by simpa using (congrArg Fin.val h).symm)
          simp [hnj, hni, this]
  rw [key]
  refine (Equiv.Perm.ofFn_comp_perm (Equiv.swap (⟨i, hi⟩ : Fin v.length) ⟨j, hj⟩)
    (fun k : Fin v.length => v.get k)).trans ?_
  simp [List.ofFn_get]

/-- A draw `random(0, i + 2)` lands in `0 .. i + 1`, whatever the raw value. -/
theorem randomIn_range (raw i : Nat) : (randomIn raw 0 ((i : Int) + 2)).toNat < i + 2 := by
  unfold randomIn
  have h1 : ¬ ((0 : Int) ≥ (i : Int) + 2) := by omega
  rw [if_neg h1]
  have h2 : (0 : Int) ≤ (raw : Int) % ((i : Int) + 2 - 0) := Int.emod_nonneg _ (by omega)
  have h3 : (raw : Int) % ((i : Int) + 2 - 0) < (i : Int) + 2 - 0 :=
    Int.emod_lt_of_pos _ (by omega)
  omega

/-- Every outcome `j` of `0 .. i + 1` is the draw for some raw value. -/
theorem randomIn_onto (i j : Nat) (h : j < i + 2) : randomIn j 0 ((i : Int) + 2) = j := by
  unfold randomIn
  have h1 : ¬ ((0 : Int) ≥ (i : Int) + 2) := by omega
  rw [if_neg h1]
  have : (j : Int) % ((i : Int) + 2 - 0) = j := Int.emod_eq_of_lt (by omega) (by omega)
  omega

/-- The shuffle loop rearranges the vector, for every generator. -/
theorem shuffleFrom_perm (entropy : Nat → Nat) :
    ∀ (i k : Nat) (v : List Int), i < v.length → (shuffleFrom entropy i k v).2.Perm v
  | 0, _, _, _ => List.Perm.refl _
  | i + 1, k, v, h => by
    have hj := randomIn_range (entropy k) i
    have hp := swapAt_perm v (i + 1) (randomIn (entropy k) 0 (i + 2)).toNat h (by omega)
    have hl := swapAt_length v (i + 1) (randomIn (entropy k) 0 (i + 2)).toNat
    have ih := shuffleFrom_perm entropy i (k + 1)
      (swapAt v (i + 1) (randomIn (entropy k) 0 (i + 2)).toNat) (by omega)
    simp only [shuffleFrom]
    exact ih.trans hp

theorem reshuffle_perm (w : World) : (reshuffle w).shuffledIndices.Perm w.shuffledIndices := by
  unfold reshuffle
  by_cases h : w.shuffledIndices.length = 0
  · simp [h, shuffleFrom]
  · exact shuffleFrom_perm w.entropy _ _ _ (by omega)

theorem reshuffle_imageFiles (w : World) : (reshuffle w).imageFiles = w.imageFiles := rfl

/-- After `initRandomSlideshow` the vector is a rearrangement of `0 .. n-1`,
the cursor is 0 and the image list is unchanged. -/
theorem initRandomSlideshow_spec (w : World) (h : w.imageFiles ≠ []) :
    (initRandomSlideshow w).shuffledIndices.Perm
        ((List.range w.imageFiles.length).map Int.ofNat) ∧
      (initRandomSlideshow w).currentShuffleIndex = 0 ∧
      (initRandomSlideshow w).imageFiles = w.imageFiles := by
  have he : w.imageFiles.isEmpty = false := by
    cases hw : w.imageFiles with
    | nil => exact absurd hw h
    | cons a l => rfl
  unfold initRandomSlideshow
  rw [if_neg (by simp [he])]
  exact ⟨reshuffle_perm _, rfl, rfl⟩

/-- A call with the cursor inside the vector returns the entry at the cursor. -/
theorem getNextRandomImage_inBounds (w : World) (he : w.imageFiles.isEmpty = false)
    (hc : w.currentShuffleIndex < w.shuffledIndices.length) :
    getNextRandomImage w = some (w.shuffledIndices[w.currentShuffleIndex],
      if w.currentShuffleIndex + 1 ≥ w.shuffledIndices.length then
        { reshuffle { w with currentShuffleIndex := w.currentShuffleIndex + 1 } with
          currentShuffleIndex := 0 }
      else { w with currentShuffleIndex := w.currentShuffleIndex + 1 }) := by
  have hget : w.shuffledIndices.get? w.currentShuffleIndex
      = some (w.shuffledIndices[w.currentShuffleIndex]) := by
    simp [List.getElem?_eq_getElem hc]
  unfold getNextRandomImage
  rw [if_neg (by simp [he]), hget]
  dsimp only
  split <;> rfl

/-- As long as the cursor stays within the vector, `k` calls return the `k`
entries from the cursor on, in order. -/
theorem nextImages_window :
    ∀ (k : Nat) (w : World), w.imageFiles.isEmpty = false →
      w.currentShuffleIndex + k ≤ w.shuffledIndices.length →
      ∃ w1, nextImages k w = some ((w.shuffledIndices.drop w.currentShuffleIndex).take k, w1)
  | 0, w, _, _ => ⟨w, by simp [nextImages]⟩
  | k + 1, w, he, hk => by
    have hc : w.currentShuffleIndex < w.shuffledIndices.length := by omega
    have hdrop : (w.shuffledIndices.drop w.currentShuffleIndex).take (k + 1)
        = w.shuffledIndices[w.currentShuffleIndex] ::
          (w.shuffledIndices.drop (w.currentShuffleIndex + 1)).take k := by
      rw [List.drop_eq_getElem_cons hc, List.take_succ_cons]
    rw [hdrop, nextImages, getNextRandomImage_inBounds w he hc]
    by_cases hwrap : w.currentShuffleIndex + 1 ≥ w.shuffledIndices.length
    · have hk0 : k = 0 := by omega
      subst hk0
      rw [if_pos hwrap]
      exact ⟨_, rfl⟩
    · obtain ⟨w2, h2⟩ := nextImages_window k
        { w with currentShuffleIndex := w.currentShuffleIndex + 1 } he (by simp; omega)
      rw [if_neg hwrap]
      refine ⟨w2, ?_⟩
      dsimp only at h2 ⊢
      rw [h2]

/-- C1. For every image list of length `n ≥ 1` and every generator,
`initRandomSlideshow` followed by `n` calls of `getNextRandomImage` succeeds
and returns a rearrangement of `0 .. n-1`: every index exactly once. -/
theorem sequencer_full_cycle (w : World) (h : w.imageFiles ≠ []) :
    ∃ outs w1, nextImages w.imageFiles.length (initRandomSlideshow w) = some (outs, w1) ∧
      outs.Perm ((List.range w.imageFiles.length).map Int.ofNat) ∧
      outs.length = w.imageFiles.length ∧
      ∀ i : Nat, i < w.imageFiles.length → outs.count (i : Int) = 1 := by
  obtain ⟨hp, hc, hi⟩ := initRandomSlideshow_spec w h
  have he : (initRandomSlideshow w).imageFiles.isEmpty = false := by
    rw [hi]
    cases hw : w.imageFiles with
    | nil => exact absurd hw h
    | cons a l => rfl
  have hlen : (initRandomSlideshow w).shuffledIndices.length = w.imageFiles.length := by
    simpa using hp.length_eq
  obtain ⟨w1, h1⟩ := nextImages_window w.imageFiles.length (initRandomSlideshow w) he
    (by rw [hc, hlen]; omega)
  rw [hc, List.drop_zero, ← hlen, List.take_length] at h1
  refine ⟨_, w1, by rw [← hlen]; exact h1, hp, hlen, ?_⟩
  intro i hlt
  rw [hp.count_eq]
  have hinj : Function.Injective Int.ofNat := fun a b hab => Int.ofNat.inj hab
  have : List.count ((i : Nat) : Int) (List.map Int.ofNat (List.range w.imageFiles.length))
      = List.count i (List.range w.imageFiles.length) :=
    List.count_map_of_injective _ Int.ofNat hinj i
  rw [this, List.count_eq_one_of_mem (List.nodup_range _) (List.mem_range.mpr hlt)]

/-- C1 on three images with the generator `k ↦ 7 k + 3`. -/
theorem sequencer_full_cycle_witness :
    ∃ outs w1,
      nextImages 3 (initRandomSlideshow
        { boot ⟨false, none, none, false, false⟩ (fun k => k * 7 + 3) with
          imageFiles := ["/a.jpg", "/b.jpg", "/c.jpg"] }) = some (outs, w1) ∧
      outs.Perm ((List.range 3).map Int.ofNat) ∧ outs.length = 3 ∧
      ∀ i : Nat, i < 3 → outs.count (i : Int) = 1 :=
  sequencer_full_cycle
    { boot ⟨false, none, none, false, false⟩ (fun k => k * 7 + 3) with
      imageFiles := ["/a.jpg", "/b.jpg", "/c.jpg"] } (by simp)

/-! ## Button classifier -/

theorem quiet_refl (w : World) : Quiet w w := ⟨rfl, rfl, rfl, rfl, rfl, rfl⟩

theorem quiet_trans {a b c : World} (h1 : Quiet a b) (h2 : Quiet b c) : Quiet a c :=
  ⟨h2.last.trans h1.last, h2.pressed.trans h1.pressed, h2.time.trans h1.time,
    h2.triggered.trans h1.triggered, h2.short.trans h1.short, h2.long.trans h1.long⟩

theorem quiet_emit (w : World) (e : Effect) (h1 : e ≠ .handleShortPress)
    (h2 : e ≠ .handleLongPress) : Quiet w (emit w e) := by
  refine ⟨rfl, rfl, rfl, rfl, ?_, ?_⟩
  · simp [emit, shortPresses, List.count_append, List.count_singleton, h1]
  · simp [emit, longPresses, List.count_append, List.count_singleton, h2]

theorem quiet_drawJpeg (w : World) (p : String) : Quiet w (drawJpeg w p) := by
  unfold drawJpeg
  split_ifs
  · exact quiet_emit w _ (by simp) (by simp)
  · exact quiet_emit w _ (by simp) (by simp)

theorem displayImage_mode (w : World) (i : Int) (t : Nat) :
    (displayImage w i t).currentState = w.currentState ∧
    (displayImage w i t).selectedMenuItem = w.selectedMenuItem := by
  unfold displayImage
  split_ifs <;> simp [drawJpeg, emit]

theorem exitToSlideshow_mode (w : World) (t : Nat) :
    (exitToSlideshow w t).currentState = STATE_SLIDESHOW ∧
    (exitToSlideshow w t).selectedMenuItem = w.selectedMenuItem := by
  unfold exitToSlideshow
  dsimp only
  split_ifs
  · exact displayImage_mode _ _ _
  · exact ⟨rfl, rfl⟩

theorem quiet_displayImage (w : World) (i : Int) (t : Nat) : Quiet w (displayImage w i t) := by
  unfold displayImage
  split_ifs
  · exact quiet_refl w
  · exact quiet_trans (quiet_trans (b := { w with currentImageIndex := clampIndex w.imageFiles.length i })
      ⟨rfl, rfl, rfl, rfl, rfl, rfl⟩ (quiet_drawJpeg _ _)) ⟨rfl, rfl, rfl, rfl, rfl, rfl⟩

theorem quiet_exitToSlideshow (w : World) (t : Nat) : Quiet w (exitToSlideshow w t) := by
  unfold exitToSlideshow
  dsimp only
  split_ifs
  · exact quiet_trans (b := { w with currentState := STATE_SLIDESHOW }) ⟨rfl, rfl, rfl, rfl, rfl, rfl⟩ (quiet_displayImage _ _ _)
  · exact quiet_trans (b := { w with currentState := STATE_SLIDESHOW }) ⟨rfl, rfl, rfl, rfl, rfl, rfl⟩ (quiet_emit _ _ (by simp) (by simp))

theorem quiet_saveIntervalToSD (w : World) : Quiet w (saveIntervalToSD w) := by
  unfold saveIntervalToSD
  split_ifs
  · exact quiet_emit w _ (by simp) (by simp)
  · exact quiet_trans (b := { w with sd := { w.sd with intervalFile := some (printInt w.currentIntervalIndex) } })
      ⟨rfl, rfl, rfl, rfl, rfl, rfl⟩ (quiet_emit _ _ (by simp) (by simp))
  · exact quiet_emit w _ (by simp) (by simp)

theorem quiet_saveBrightnessToSD (w : World) : Quiet w (saveBrightnessToSD w) := by
  unfold saveBrightnessToSD
  split_ifs
  · exact quiet_emit w _ (by simp) (by simp)
  · exact quiet_trans (b := { w with sd := { w.sd with brightnessFile := some (printNat w.currentBrightness) } })
      ⟨rfl, rfl, rfl, rfl, rfl, rfl⟩ (quiet_emit _ _ (by simp) (by simp))
  · exact quiet_emit w _ (by simp) (by simp)

theorem quiet_set_brightness (w : World) (l : Nat) : Quiet w (set_brightness w l) := by
  unfold set_brightness
  exact quiet_emit w _ (by simp) (by simp)

theorem quiet_showMessage (w : World) (m : String) (t : Nat) : Quiet w (showMessage w m t) := by
  unfold showMessage
  split_ifs
  · exact quiet_refl w
  · exact quiet_trans (quiet_emit w _ (by simp) (by simp)) ⟨rfl, rfl, rfl, rfl, rfl, rfl⟩

theorem quiet_showMainMenu (w : World) : Quiet w (showMainMenu w) :=
  quiet_emit w _ (by simp) (by simp)

theorem quiet_showIntervalSetting (w : World) : Quiet w (showIntervalSetting w) :=
  quiet_emit w _ (by simp) (by simp)

theorem quiet_showBrightnessSetting (w : World) : Quiet w (showBrightnessSetting w) :=
  quiet_emit w _ (by simp) (by simp)

theorem quiet_showSystemInfo (w : World) : Quiet w (showSystemInfo w) :=
  quiet_emit w _ (by simp) (by simp)

theorem quiet_changeInterval (w : World) (t1 t2 : Nat) : Quiet w (changeInterval w t1 t2) := by
  unfold changeInterval
  dsimp only
  refine quiet_trans (quiet_trans (quiet_trans ?_ (quiet_saveIntervalToSD _)) (quiet_showMessage _ _ _)) ⟨rfl, rfl, rfl, rfl, rfl, rfl⟩
  exact ⟨rfl, rfl, rfl, rfl, rfl, rfl⟩

theorem quiet_adjustInterval (w : World) (d : Int) : Quiet w (adjustInterval w d) := by
  unfold adjustInterval
  dsimp only
  refine quiet_trans (quiet_trans ?_ (quiet_saveIntervalToSD _)) (quiet_showIntervalSetting _)
  split_ifs <;> exact ⟨rfl, rfl, rfl, rfl, rfl, rfl⟩

theorem quiet_adjustBrightness (w : World) (d : Int) : Quiet w (adjustBrightness w d) := by
  unfold adjustBrightness
  dsimp only
  split_ifs
  all_goals first
    | exact quiet_refl w
    | (refine quiet_trans (quiet_trans (quiet_trans ?_ (quiet_set_brightness _ _))
        (quiet_saveBrightnessToSD _)) (quiet_showBrightnessSetting _)
       exact ⟨rfl, rfl, rfl, rfl, rfl, rfl⟩)

/-- A short-press handler leaves the button variables alone and logs exactly
one handler entry, its own. -/
theorem handleShortPress_button (w : World) (r : Reads) :
    (handleShortPress w r).lastButtonState = w.lastButtonState ∧
    (handleShortPress w r).buttonPressed = w.buttonPressed ∧
    (handleShortPress w r).buttonPressTime = w.buttonPressTime ∧
    (handleShortPress w r).longPressTriggered = w.longPressTriggered ∧
    shortPresses (handleShortPress w r).log = shortPresses w.log + 1 ∧
    longPresses (handleShortPress w r).log = longPresses w.log := by
  have h0 : shortPresses (emit w .handleShortPress).log = shortPresses w.log + 1 ∧
      longPresses (emit w .handleShortPress).log = longPresses w.log := by
    simp [emit, shortPresses, longPresses, List.count_append]
  have key : Quiet (enterHandler w .handleShortPress r.handler) (handleShortPress w r) := by
    unfold handleShortPress
    dsimp only
    split
    · exact quiet_trans (by exact ⟨rfl, rfl, rfl, rfl, rfl, rfl⟩) (quiet_showMainMenu _)
    · split_ifs
      · exact quiet_trans (by exact ⟨rfl, rfl, rfl, rfl, rfl, rfl⟩) (quiet_showIntervalSetting _)
      · exact quiet_trans (by exact ⟨rfl, rfl, rfl, rfl, rfl, rfl⟩) (quiet_showBrightnessSetting _)
      · exact quiet_trans (by exact ⟨rfl, rfl, rfl, rfl, rfl, rfl⟩) (quiet_showSystemInfo _)
      · exact quiet_exitToSlideshow _ _
      · exact quiet_refl _
    · exact quiet_adjustInterval _ _
    · exact quiet_adjustBrightness _ _
    · exact quiet_trans (by exact ⟨rfl, rfl, rfl, rfl, rfl, rfl⟩) (quiet_showMainMenu _)
  exact ⟨key.last, key.pressed, key.time, key.triggered, key.short.trans h0.1,
    key.long.trans h0.2⟩

/-- A long-press handler leaves the button variables alone and logs exactly
one handler entry, its own. -/
theorem handleLongPress_button (w : World) (r : Reads) :
    (handleLongPress w r).lastButtonState = w.lastButtonState ∧
    (handleLongPress w r).buttonPressed = w.buttonPressed ∧
    (handleLongPress w r).buttonPressTime = w.buttonPressTime ∧
    (handleLongPress w r).longPressTriggered = w.longPressTriggered ∧
    shortPresses (handleLongPress w r).log = shortPresses w.log ∧
    longPresses (handleLongPress w r).log = longPresses w.log + 1 := by
  have h0 : shortPresses (emit w .handleLongPress).log = shortPresses w.log ∧
      longPresses (emit w .handleLongPress).log = longPresses w.log + 1 := by
    simp [emit, shortPresses, longPresses, List.count_append]
  have key : Quiet (enterHandler w .handleLongPress r.handler) (handleLongPress w r) := by
    unfold handleLongPress
    dsimp only
    split
    · exact quiet_changeInterval _ _ _
    · exact quiet_trans (by exact ⟨rfl, rfl, rfl, rfl, rfl, rfl⟩) (quiet_showMainMenu _)
    · exact quiet_adjustInterval _ _
    · exact quiet_adjustBrightness _ _
    · exact quiet_exitToSlideshow _ _
  exact ⟨key.last, key.pressed, key.time, key.triggered, key.short.trans h0.1,
    key.long.trans h0.2⟩

theorem quiet_settingTimeout (w : World) (r : Reads) : Quiet w (settingTimeout w r) := by
  unfold settingTimeout
  split_ifs
  · exact quiet_trans (by exact ⟨rfl, rfl, rfl, rfl, rfl, rfl⟩) (quiet_showMainMenu _)
  · exact quiet_refl w
  · exact quiet_refl w

theorem quiet_menuTimeout (w : World) (r : Reads) : Quiet w (menuTimeout w r) := by
  unfold menuTimeout
  split_ifs
  · exact quiet_exitToSlideshow _ _
  · exact quiet_refl w
  · exact quiet_refl w

/-- The timeout blocks of `processButtonInput` change neither the button
variables nor the handler counts of `classifyButton`. -/
theorem quiet_timeouts (w : World) (r : Reads) :
    Quiet (classifyButton w r) (processButtonInput w r) :=
  quiet_trans (quiet_settingTimeout _ _) (quiet_menuTimeout _ _)


@[simp] theorem handleShortPress_last (w : World) (r : Reads) :
    (handleShortPress w r).lastButtonState = w.lastButtonState := (handleShortPress_button w r).1
@[simp] theorem handleShortPress_pressed (w : World) (r : Reads) :
    (handleShortPress w r).buttonPressed = w.buttonPressed := (handleShortPress_button w r).2.1
@[simp] theorem handleShortPress_time (w : World) (r : Reads) :
    (handleShortPress w r).buttonPressTime = w.buttonPressTime := (handleShortPress_button w r).2.2.1
@[simp] theorem handleShortPress_triggered (w : World) (r : Reads) :
    (handleShortPress w r).longPressTriggered = w.longPressTriggered :=
  (handleShortPress_button w r).2.2.2.1
@[simp] theorem handleShortPress_short (w : World) (r : Reads) :
    shortPresses (handleShortPress w r).log = shortPresses w.log + 1 :=
  (handleShortPress_button w r).2.2.2.2.1
@[simp] theorem handleShortPress_long (w : World) (r : Reads) :
    longPresses (handleShortPress w r).log = longPresses w.log :=
  (handleShortPress_button w r).2.2.2.2.2
@[simp] theorem handleLongPress_last (w : World) (r : Reads) :
    (handleLongPress w r).lastButtonState = w.lastButtonState := (handleLongPress_button w r).1
@[simp] theorem handleLongPress_pressed (w : World) (r : Reads) :
    (handleLongPress w r).buttonPressed = w.buttonPressed := (handleLongPress_button w r).2.1
@[simp] theorem handleLongPress_time (w : World) (r : Reads) :
    (handleLongPress w r).buttonPressTime = w.buttonPressTime := (handleLongPress_button w r).2.2.1
@[simp] theorem handleLongPress_triggered (w : World) (r : Reads) :
    (handleLongPress w r).longPressTriggered = w.longPressTriggered :=
  (handleLongPress_button w r).2.2.2.1
@[simp] theorem handleLongPress_short (w : World) (r : Reads) :
    shortPresses (handleLongPress w r).log = shortPresses w.log :=
  (handleLongPress_button w r).2.2.2.2.1
@[simp] theorem handleLongPress_long (w : World) (r : Reads) :
    longPresses (handleLongPress w r).log = longPresses w.log + 1 :=
  (handleLongPress_button w r).2.2.2.2.2

/-- The tick that sees the falling edge: the press is recorded and no handler runs. -/
theorem tick_press (w : World) (r : Reads) (hl : r.level = LOW) (hlast : w.lastButtonState = HIGH) :
    (processButtonInput w r).lastButtonState = LOW ∧
    (processButtonInput w r).buttonPressed = true ∧
    (processButtonInput w r).buttonPressTime = r.now ∧
    (processButtonInput w r).longPressTriggered = false ∧
    shortPresses (processButtonInput w r).log = shortPresses w.log ∧
    longPresses (processButtonInput w r).log = longPresses w.log := by
  have q := quiet_timeouts w r
  have h0 : usub r.now r.now = 0 := by unfold usub; omega
  have hc : (classifyButton w r).lastButtonState = LOW ∧
      (classifyButton w r).buttonPressed = true ∧
      (classifyButton w r).buttonPressTime = r.now ∧
      (classifyButton w r).longPressTriggered = false ∧
      shortPresses (classifyButton w r).log = shortPresses w.log ∧
      longPresses (classifyButton w r).log = longPresses w.log := by
    simp [classifyButton, detectPress, detectRelease, dispatchRelease, detectLongPress, hl, hlast, h0,
      LONG_PRESS_TIME]
  exact ⟨q.last.trans hc.1, q.pressed.trans hc.2.1, q.time.trans hc.2.2.1,
    q.triggered.trans hc.2.2.2.1, q.short.trans hc.2.2.2.2.1, q.long.trans hc.2.2.2.2.2⟩


/-- A tick with the button held: the long press fires once the hold has lasted
more than `LONG_PRESS_TIME`, unless it fired before. -/
theorem tick_hold (w : World) (r : Reads) (hl : r.level = LOW) (hlast : w.lastButtonState = LOW)
    (hp : w.buttonPressed = true) :
    (processButtonInput w r).lastButtonState = LOW ∧
    (processButtonInput w r).buttonPressed = true ∧
    (processButtonInput w r).buttonPressTime = w.buttonPressTime ∧
    shortPresses (processButtonInput w r).log = shortPresses w.log ∧
    (w.longPressTriggered = false ∧ usub r.now w.buttonPressTime > LONG_PRESS_TIME →
      (processButtonInput w r).longPressTriggered = true ∧
      longPresses (processButtonInput w r).log = longPresses w.log + 1) ∧
    (¬ (w.longPressTriggered = false ∧ usub r.now w.buttonPressTime > LONG_PRESS_TIME) →
      (processButtonInput w r).longPressTriggered = w.longPressTriggered ∧
      longPresses (processButtonInput w r).log = longPresses w.log) := by
  have q := quiet_timeouts w r
  rw [q.last, q.pressed, q.time, q.triggered, q.short, q.long]
  by_cases hc : w.longPressTriggered = false ∧ usub r.now w.buttonPressTime > LONG_PRESS_TIME
  · simp [classifyButton, detectPress, detectRelease, dispatchRelease, detectLongPress, hl, hlast, hp, hc.1, hc.2]
  · have hc2 : w.longPressTriggered = true ∨ ¬ (usub r.now w.buttonPressTime > LONG_PRESS_TIME) := by
      by_cases h : w.longPressTriggered = true
      · exact Or.inl h
      · right; intro h2; exact hc ⟨by simpa using h, h2⟩
    rcases hc2 with h | h
    · simp [classifyButton, detectPress, detectRelease, dispatchRelease, detectLongPress, hl, hlast, hp, h]
    · simp [classifyButton, detectPress, detectRelease, dispatchRelease, detectLongPress, hl, hlast, hp, h]

/-- The tick that sees the rising edge: a short press is dispatched exactly
when the hold lasted more than `SHORT_PRESS_TIME`, less than `LONG_PRESS_TIME`
and no long press fired; a long press is never dispatched. -/
theorem tick_release (w : World) (r : Reads) (hl : r.level = HIGH)
    (hlast : w.lastButtonState = LOW) (hp : w.buttonPressed = true) :
    (processButtonInput w r).lastButtonState = HIGH ∧
    (processButtonInput w r).buttonPressed = false ∧
    (processButtonInput w r).longPressTriggered = false ∧
    longPresses (processButtonInput w r).log = longPresses w.log ∧
    (usub r.now w.buttonPressTime > SHORT_PRESS_TIME ∧ w.longPressTriggered = false ∧
        usub r.now w.buttonPressTime < LONG_PRESS_TIME →
      shortPresses (processButtonInput w r).log = shortPresses w.log + 1) ∧
    (¬ (usub r.now w.buttonPressTime > SHORT_PRESS_TIME ∧ w.longPressTriggered = false ∧
        usub r.now w.buttonPressTime < LONG_PRESS_TIME) →
      shortPresses (processButtonInput w r).log = shortPresses w.log) := by
  have q := quiet_timeouts w r
  rw [q.last, q.pressed, q.triggered, q.short, q.long]
  by_cases hc : usub r.now w.buttonPressTime > SHORT_PRESS_TIME ∧ w.longPressTriggered = false ∧
      usub r.now w.buttonPressTime < LONG_PRESS_TIME
  · simp [classifyButton, detectPress, detectRelease, dispatchRelease, detectLongPress, hl, hlast, hp, hc.1,
      hc.2.1, hc.2.2]
  · have hc2 : ¬ (usub r.now w.buttonPressTime > SHORT_PRESS_TIME) ∨
        w.longPressTriggered = true ∨ ¬ (usub r.now w.buttonPressTime < LONG_PRESS_TIME) := by
      by_cases h1 : usub r.now w.buttonPressTime > SHORT_PRESS_TIME
      · by_cases h2 : w.longPressTriggered = true
        · exact Or.inr (Or.inl h2)
        · exact Or.inr (Or.inr fun h3 => hc ⟨h1, by simpa using h2, h3⟩)
      · exact Or.inl h1
    rcases hc2 with h | h | h
    · simp [classifyButton, detectPress, detectRelease, dispatchRelease, detectLongPress, hl, hlast, hp, h]
    · simp [classifyButton, detectPress, detectRelease, dispatchRelease, detectLongPress, hl, hlast, hp, h]
    · simp [classifyButton, detectPress, detectRelease, dispatchRelease, detectLongPress, hl, hlast, hp, h]


/-- A tick never removes handler entries from the log. -/
theorem tick_monotone (w : World) (r : Reads) :
    shortPresses w.log ≤ shortPresses (processButtonInput w r).log ∧
    longPresses w.log ≤ longPresses (processButtonInput w r).log := by
  have q := quiet_timeouts w r
  rw [q.short, q.long]
  simp only [classifyButton, detectPress, detectRelease, dispatchRelease, detectLongPress]
  constructor <;> split_ifs <;> simp

/-- A tick that sees no falling edge dispatches at most as many handlers as the
press still has pending, and uses them up. -/
theorem tick_budget (w : World) (r : Reads)
    (hne : ¬ (r.level = LOW ∧ w.lastButtonState = HIGH)) :
    handlerCalls (processButtonInput w r).log + pendingCalls (processButtonInput w r)
      ≤ handlerCalls w.log + pendingCalls w := by
  have q := quiet_timeouts w r
  unfold handlerCalls pendingCalls
  rw [q.short, q.long, q.pressed, q.triggered]
  rcases Bool.eq_false_or_eq_true w.buttonPressed with hp | hp <;>
  rcases Bool.eq_false_or_eq_true w.longPressTriggered with ht | ht <;>
  rcases Bool.eq_false_or_eq_true r.level with hl | hl <;>
  rcases Bool.eq_false_or_eq_true w.lastButtonState with hlast | hlast <;>
  first
    | exact absurd (And.intro hl hlast) hne
    | (simp [classifyButton, detectPress, detectRelease, dispatchRelease, detectLongPress, hp, ht, hl, hlast]
       try (split_ifs <;> simp_all <;> omega))


theorem usub_of_le (a b : Nat) (h : b ≤ a) (ha : a < 4294967296) : usub a b = a - b := by
  unfold usub
  omega

/-- At most one handler is dispatched per tick, in every state. -/
theorem tick_at_most_one (w : World) (r : Reads) :
    handlerCalls (processButtonInput w r).log ≤ handlerCalls w.log + 1 := by
  by_cases he : r.level = LOW ∧ w.lastButtonState = HIGH
  · have h := tick_press w r he.1 he.2
    unfold handlerCalls
    omega
  · have h := tick_budget w r he
    have hb : pendingCalls w ≤ 1 := by
      unfold pendingCalls
      split_ifs <;> omega
    omega

/-- From a falling edge up to the next one, at most one handler is dispatched. -/
theorem segment_budget :
    ∀ (rest : List Reads) (w : World), noFallingEdge w.lastButtonState rest = true →
      handlerCalls (runTicks w rest).log + pendingCalls (runTicks w rest)
        ≤ handlerCalls w.log + pendingCalls w
  | [], w, _ => Nat.le_refl _
  | r :: rs, w, h => by
    simp only [noFallingEdge, Bool.and_eq_true, Bool.not_eq_true', Bool.and_eq_false_iff] at h
    have hne : ¬ (r.level = LOW ∧ w.lastButtonState = HIGH) := by
      rintro ⟨h1, h2⟩
      rcases h.1 with h3 | h3
      · simp [h1] at h3
      · simp [h2] at h3
    have h1 := tick_budget w r hne
    have hlast : (processButtonInput w r).lastButtonState = r.level := by
      rw [(quiet_timeouts w r).last]
      rfl
    have h2 := segment_budget rs (processButtonInput w r) (by rw [hlast]; exact h.2)
    simp only [runTicks]
    omega

theorem runTicks_monotone :
    ∀ (rs : List Reads) (w : World),
      shortPresses w.log ≤ shortPresses (runTicks w rs).log ∧
      longPresses w.log ≤ longPresses (runTicks w rs).log
  | [], _ => ⟨Nat.le_refl _, Nat.le_refl _⟩
  | r :: rs, w => by
    have h1 := tick_monotone w r
    have h2 := runTicks_monotone rs (processButtonInput w r)
    simp only [runTicks]
    omega

/-- The hold phase of a press that started at `T`: the short-press count does
not move, and the long press fires exactly once if some tick samples the clock
later than `T + LONG_PRESS_TIME`, and not at all otherwise. -/
theorem hold_phase (T : Nat) :
    ∀ (holds : List Reads) (w : World), w.lastButtonState = LOW → w.buttonPressed = true →
      w.buttonPressTime = T →
      (∀ r ∈ holds, r.level = LOW ∧ T ≤ r.now ∧ r.now < 4294967296) →
      (runTicks w holds).lastButtonState = LOW ∧
      (runTicks w holds).buttonPressed = true ∧
      (runTicks w holds).buttonPressTime = T ∧
      shortPresses (runTicks w holds).log = shortPresses w.log ∧
      (w.longPressTriggered = true →
        (runTicks w holds).longPressTriggered = true ∧
        longPresses (runTicks w holds).log = longPresses w.log) ∧
      (w.longPressTriggered = false → (∃ r ∈ holds, T + LONG_PRESS_TIME < r.now) →
        (runTicks w holds).longPressTriggered = true ∧
        longPresses (runTicks w holds).log = longPresses w.log + 1) ∧
      (w.longPressTriggered = false → (∀ r ∈ holds, r.now ≤ T + LONG_PRESS_TIME) →
        (runTicks w holds).longPressTriggered = false ∧
        longPresses (runTicks w holds).log = longPresses w.log)
  | [], w, h1, h2, h3, _ => by
    refine ⟨h1, h2, h3, rfl, fun h => ⟨h, rfl⟩, ?_, fun h _ => ⟨h, rfl⟩⟩
    rintro _ ⟨r, hr, _⟩
    simp at hr
  | r :: rs, w, h1, h2, h3, hh => by
    have hr := hh r (List.mem_cons_self _ _)
    have ht := tick_hold w r hr.1 h1 h2
    have hu : usub r.now w.buttonPressTime = r.now - T := by
      rw [h3]; exact usub_of_le _ _ hr.2.1 hr.2.2
    rw [hu] at ht
    obtain ⟨t1, t2, t3, t4, t5, t6⟩ := ht
    have ih := hold_phase T rs (processButtonInput w r) t1 t2 (t3.trans h3)
      (fun x hx => hh x (List.mem_cons_of_mem _ hx))
    obtain ⟨i1, i2, i3, i4, i5, i6, i7⟩ := ih
    simp only [runTicks]
    refine ⟨i1, i2, i3, i4.trans t4, ?_, ?_, ?_⟩
    · intro hw
      have := t6 (by simp [hw])
      obtain ⟨a, b⟩ := i5 (this.1.trans hw)
      exact ⟨a, b.trans this.2⟩
    · intro hw hex
      by_cases hfire : r.now - T > LONG_PRESS_TIME
      · obtain ⟨a, b⟩ := t5 ⟨hw, hfire⟩
        obtain ⟨c, d⟩ := i5 a
        exact ⟨c, d.trans b⟩
      · obtain ⟨a, b⟩ := t6 (fun h => hfire h.2)
        have hex2 : ∃ x ∈ rs, T + LONG_PRESS_TIME < x.now := by
          obtain ⟨x, hx, hlt⟩ := hex
          rcases List.mem_cons.mp hx with rfl | hx
          · exact absurd (by omega) hfire
          · exact ⟨x, hx, hlt⟩
        obtain ⟨c, d⟩ := i6 (a.trans hw) hex2
        exact ⟨c, by rw [d, b]⟩
    · intro hw hall
      have hnf : ¬ (r.now - T > LONG_PRESS_TIME) := by
        have := hall r (List.mem_cons_self _ _)
        omega
      obtain ⟨a, b⟩ := t6 (fun h => hnf h.2)
      obtain ⟨c, d⟩ := i7 (a.trans hw) (fun x hx => hall x (List.mem_cons_of_mem _ hx))
      exact ⟨c, d.trans b⟩

/-- C2, as the code has it. A press-release cycle: the falling edge is seen at
time `T`, the button is held on every tick in between (sampled at times within
`T .. T + d`), and the rising edge is seen at `T + d`.
* `d ≤ 50`: no handler is invoked.
* `50 < d < 500`: no handler is invoked before the release tick, and the release
  tick invokes exactly one `handleShortPress` and no `handleLongPress`.
* some held tick samples the clock later than `T + 500`: exactly one
  `handleLongPress` is invoked, on a held tick, and the release tick invokes
  nothing.
* `d ≥ 500`: the release tick invokes nothing. -/
theorem press_release_cycle (w : World) (press release : Reads) (holds : List Reads) (T d : Nat)
    (hlast : w.lastButtonState = HIGH)
    (hp : press.level = LOW ∧ press.now = T)
    (hh : ∀ r ∈ holds, r.level = LOW ∧ T ≤ r.now ∧ r.now ≤ T + d)
    (hr : release.level = HIGH ∧ release.now = T + d)
    (hb : T + d < 4294967296) :
    (d ≤ SHORT_PRESS_TIME →
      shortPresses (processButtonInput (runTicks w (press :: holds)) release).log
        = shortPresses w.log ∧
      longPresses (processButtonInput (runTicks w (press :: holds)) release).log
        = longPresses w.log) ∧
    (SHORT_PRESS_TIME < d → d < LONG_PRESS_TIME →
      shortPresses (runTicks w (press :: holds)).log = shortPresses w.log ∧
      longPresses (runTicks w (press :: holds)).log = longPresses w.log ∧
      shortPresses (processButtonInput (runTicks w (press :: holds)) release).log
        = shortPresses w.log + 1 ∧
      longPresses (processButtonInput (runTicks w (press :: holds)) release).log
        = longPresses w.log) ∧
    ((∃ r ∈ holds, T + LONG_PRESS_TIME < r.now) →
      shortPresses (runTicks w (press :: holds)).log = shortPresses w.log ∧
      longPresses (runTicks w (press :: holds)).log = longPresses w.log + 1 ∧
      shortPresses (processButtonInput (runTicks w (press :: holds)) release).log
        = shortPresses w.log ∧
      longPresses (processButtonInput (runTicks w (press :: holds)) release).log
        = longPresses w.log + 1) ∧
    (LONG_PRESS_TIME ≤ d →
      shortPresses (processButtonInput (runTicks w (press :: holds)) release).log
        = shortPresses (runTicks w (press :: holds)).log ∧
      longPresses (processButtonInput (runTicks w (press :: holds)) release).log
        = longPresses (runTicks w (press :: holds)).log) := by
  obtain ⟨p1, p2, p3, p4, p5, p6⟩ := tick_press w press hp.1 hlast
  have hph := hold_phase T holds (processButtonInput w press) p1 p2 (p3.trans hp.2)
    (fun r hr => ⟨(hh r hr).1, (hh r hr).2.1, by have := (hh r hr).2.2; omega⟩)
  obtain ⟨q1, q2, q3, q4, _, q6, q7⟩ := hph
  have hrun : runTicks w (press :: holds) = runTicks (processButtonInput w press) holds := rfl
  rw [hrun]
  have hrel := tick_release (runTicks (processButtonInput w press) holds) release hr.1 q1 q2
  have hu : usub release.now (runTicks (processButtonInput w press) holds).buttonPressTime = d := by
    rw [q3, hr.2, usub_of_le _ _ (by omega) hb]
    omega
  rw [hu] at hrel
  obtain ⟨_, _, _, r4, r5, r6⟩ := hrel
  simp only [SHORT_PRESS_TIME, LONG_PRESS_TIME] at *
  refine ⟨?_, ?_, ?_, ?_⟩
  · intro hd
    have hno := q7 p4 (fun r hr => by have := (hh r hr).2.2; omega)
    have := r6 (by omega)
    omega
  · intro hd1 hd2
    have hno := q7 p4 (fun r hr => by have := (hh r hr).2.2; omega)
    have := r5 ⟨hd1, hno.1, hd2⟩
    omega
  · intro hex
    have hyes := q6 p4 hex
    have := r6 (by rw [hyes.1]; simp)
    omega
  · intro hd
    have := r6 (by omega)
    omega

/-- C2 at a press of 260 ms: one short press, on the release tick. -/
theorem press_release_cycle_witness :
    (260 ≤ SHORT_PRESS_TIME →
      shortPresses (processButtonInput (runTicks started
        [readsAt LOW 1000, readsAt LOW 1130]) (readsAt HIGH 1260)).log
        = shortPresses started.log ∧
      longPresses (processButtonInput (runTicks started
        [readsAt LOW 1000, readsAt LOW 1130]) (readsAt HIGH 1260)).log
        = longPresses started.log) ∧
    (SHORT_PRESS_TIME < 260 → 260 < LONG_PRESS_TIME →
      shortPresses (runTicks started [readsAt LOW 1000, readsAt LOW 1130]).log
        = shortPresses started.log ∧
      longPresses (runTicks started [readsAt LOW 1000, readsAt LOW 1130]).log
        = longPresses started.log ∧
      shortPresses (processButtonInput (runTicks started
        [readsAt LOW 1000, readsAt LOW 1130]) (readsAt HIGH 1260)).log
        = shortPresses started.log + 1 ∧
      longPresses (processButtonInput (runTicks started
        [readsAt LOW 1000, readsAt LOW 1130]) (readsAt HIGH 1260)).log
        = longPresses started.log) ∧
    ((∃ r ∈ [readsAt LOW 1130], 1000 + LONG_PRESS_TIME < r.now) →
      shortPresses (runTicks started [readsAt LOW 1000, readsAt LOW 1130]).log
        = shortPresses started.log ∧
      longPresses (runTicks started [readsAt LOW 1000, readsAt LOW 1130]).log
        = longPresses started.log + 1 ∧
      shortPresses (processButtonInput (runTicks started
        [readsAt LOW 1000, readsAt LOW 1130]) (readsAt HIGH 1260)).log
        = shortPresses started.log ∧
      longPresses (processButtonInput (runTicks started
        [readsAt LOW 1000, readsAt LOW 1130]) (readsAt HIGH 1260)).log
        = longPresses started.log + 1) ∧
    (LONG_PRESS_TIME ≤ 260 →
      shortPresses (processButtonInput (runTicks started
        [readsAt LOW 1000, readsAt LOW 1130]) (readsAt HIGH 1260)).log
        = shortPresses (runTicks started [readsAt LOW 1000, readsAt LOW 1130]).log ∧
      longPresses (processButtonInput (runTicks started
        [readsAt LOW 1000, readsAt LOW 1130]) (readsAt HIGH 1260)).log
        = longPresses (runTicks started [readsAt LOW 1000, readsAt LOW 1130]).log) :=
  press_release_cycle started (readsAt LOW 1000) (readsAt HIGH 1260) [readsAt LOW 1130] 1000 260
    (by decide) (by decide) (by simp [readsAt]) (by decide) (by decide)

/-- C2 fails as stated: a press of 505 ms, sampled at 1000 (falling edge), 1200,
1400, 1495 (held) and 1505 (rising edge), invokes no handler at all, because no
held tick samples the clock later than 1500. -/
theorem long_press_missed :
    LONG_PRESS_TIME ≤ 505 ∧ started.lastButtonState = HIGH ∧
    shortPresses (runTicks started [readsAt LOW 1000, readsAt LOW 1200, readsAt LOW 1400,
      readsAt LOW 1495, readsAt HIGH 1505]).log = shortPresses started.log ∧
    longPresses (runTicks started [readsAt LOW 1000, readsAt LOW 1200, readsAt LOW 1400,
      readsAt LOW 1495, readsAt HIGH 1505]).log = longPresses started.log := by
  decide

/-- C3. No tick of `processButtonInput` invokes more than one handler, in any
state and for any clock reads; and over a run of ticks that starts with a
falling edge of the button and contains no further falling edge, at most one
handler is invoked in total, so a long press that fired during the hold is
never followed by a short press on release. -/
theorem one_handler_per_press (w : World) (edge : Reads) (rest : List Reads)
    (hl : edge.level = LOW) (hlast : w.lastButtonState = HIGH)
    (hrest : noFallingEdge LOW rest = true) :
    (∀ (v : World) (r : Reads),
      shortPresses v.log ≤ shortPresses (processButtonInput v r).log ∧
      longPresses v.log ≤ longPresses (processButtonInput v r).log ∧
      handlerCalls (processButtonInput v r).log ≤ handlerCalls v.log + 1) ∧
    shortPresses w.log ≤ shortPresses (runTicks w (edge :: rest)).log ∧
    longPresses w.log ≤ longPresses (runTicks w (edge :: rest)).log ∧
    handlerCalls (runTicks w (edge :: rest)).log ≤ handlerCalls w.log + 1 := by
  refine ⟨fun v r => ⟨(tick_monotone v r).1, (tick_monotone v r).2, tick_at_most_one v r⟩,
    (runTicks_monotone _ w).1, (runTicks_monotone _ w).2, ?_⟩
  obtain ⟨p1, p2, _, p4, p5, p6⟩ := tick_press w edge hl hlast
  have h := segment_budget rest (processButtonInput w edge) (by rw [p1]; exact hrest)
  have hb : pendingCalls (processButtonInput w edge) = 1 := by
    simp [pendingCalls, p2, p4]
  have hc : handlerCalls (processButtonInput w edge).log = handlerCalls w.log := by
    simp [handlerCalls, p5, p6]
  simp only [runTicks]
  omega

/-- C3 on a press held for 700 ms, released, with idle ticks after it: the long
press fires during the hold and nothing else is invoked. -/
theorem one_handler_per_press_witness :
    (∀ (v : World) (r : Reads),
      shortPresses v.log ≤ shortPresses (processButtonInput v r).log ∧
      longPresses v.log ≤ longPresses (processButtonInput v r).log ∧
      handlerCalls (processButtonInput v r).log ≤ handlerCalls v.log + 1) ∧
    shortPresses started.log ≤ shortPresses (runTicks started (readsAt LOW 1000 ::
      [readsAt LOW 1300, readsAt LOW 1600, readsAt HIGH 1700, readsAt HIGH 1710])).log ∧
    longPresses started.log ≤ longPresses (runTicks started (readsAt LOW 1000 ::
      [readsAt LOW 1300, readsAt LOW 1600, readsAt HIGH 1700, readsAt HIGH 1710])).log ∧
    handlerCalls (runTicks started (readsAt LOW 1000 ::
      [readsAt LOW 1300, readsAt LOW 1600, readsAt HIGH 1700, readsAt HIGH 1710])).log
      ≤ handlerCalls started.log + 1 :=
  one_handler_per_press started (readsAt LOW 1000)
    [readsAt LOW 1300, readsAt LOW 1600, readsAt HIGH 1700, readsAt HIGH 1710]
    (by decide) (by decide) (by decide)

/-! ## Menu and settings -/

/-- C5. In the menu with selected item `i` in `0 .. 3`: a long press stays in
the menu and selects `(i + 1) mod 4`, which is again in `0 .. 3`, and four long
presses return to `i`; a short press enters the interval screen for `i = 0`,
the brightness screen for `i = 1`, the information screen for `i = 2` and the
slideshow for `i = 3`, and leaves the selected item unchanged. -/
theorem menu_transitions (w : World) (r r2 r3 r4 : Reads) (hm : w.currentState = STATE_MENU)
    (hi : 0 ≤ w.selectedMenuItem ∧ w.selectedMenuItem ≤ 3) :
    (handleLongPress w r).currentState = STATE_MENU ∧
    (handleLongPress w r).selectedMenuItem = (w.selectedMenuItem + 1) % 4 ∧
    0 ≤ (handleLongPress w r).selectedMenuItem ∧ (handleLongPress w r).selectedMenuItem ≤ 3 ∧
    (handleLongPress (handleLongPress (handleLongPress (handleLongPress w r) r2) r3) r4).currentState
      = STATE_MENU ∧
    (handleLongPress (handleLongPress (handleLongPress (handleLongPress w r) r2) r3) r4).selectedMenuItem
      = w.selectedMenuItem ∧
    (handleShortPress w r).selectedMenuItem = w.selectedMenuItem ∧
    (w.selectedMenuItem = 0 → (handleShortPress w r).currentState = STATE_SETTING_INTERVAL) ∧
    (w.selectedMenuItem = 1 → (handleShortPress w r).currentState = STATE_SETTING_BRIGHTNESS) ∧
    (w.selectedMenuItem = 2 → (handleShortPress w r).currentState = STATE_INFO) ∧
    (w.selectedMenuItem = 3 → (handleShortPress w r).currentState = STATE_SLIDESHOW) := by
  have hlong : ∀ (v : World) (q : Reads), v.currentState = STATE_MENU →
      (handleLongPress v q).currentState = STATE_MENU ∧
      (handleLongPress v q).selectedMenuItem = (v.selectedMenuItem + 1).tmod 4 := by
    intro v q hv
    simp [handleLongPress, enterHandler, emit, showMainMenu, hv, menuItemCount]
  have htmod : ∀ x : Int, 0 ≤ x → x ≤ 3 → (x + 1).tmod 4 = (x + 1) % 4 := by
    intro x h0 h3
    exact Int.tmod_eq_emod (by omega) (by omega)
  obtain ⟨a1, a2⟩ := hlong w r hm
  obtain ⟨b1, b2⟩ := hlong _ r2 a1
  obtain ⟨c1, c2⟩ := hlong _ r3 b1
  obtain ⟨d1, d2⟩ := hlong _ r4 c1
  have e1 := htmod w.selectedMenuItem hi.1 hi.2
  have hex := exitToSlideshow_mode (enterHandler w .handleShortPress r.handler) r.image
  have hsel : w.selectedMenuItem = 0 ∨ w.selectedMenuItem = 1 ∨ w.selectedMenuItem = 2 ∨
      w.selectedMenuItem = 3 := by omega
  refine ⟨a1, a2.trans e1, ?_, ?_, d1, ?_, ?_, ?_, ?_, ?_, ?_⟩
  · rw [a2, e1]; omega
  · rw [a2, e1]; omega
  · rw [d2, c2, b2, a2]
    rcases hsel with h | h | h | h <;> rw [h] <;> decide
  · rcases hsel with h | h | h | h
    · simp [handleShortPress, enterHandler, emit, showIntervalSetting, hm, h]
    · simp [handleShortPress, enterHandler, emit, showBrightnessSetting, hm, h]
    · simp [handleShortPress, enterHandler, emit, showSystemInfo, hm, h]
    · have h5 : (enterHandler w .handleShortPress r.handler).currentState = STATE_MENU := hm
      have h6 : (enterHandler w .handleShortPress r.handler).selectedMenuItem = 3 := h
      simp only [handleShortPress, h5, h6]
      exact hex.2
  · intro h
    simp [handleShortPress, enterHandler, emit, showIntervalSetting, hm, h]
  · intro h
    simp [handleShortPress, enterHandler, emit, showBrightnessSetting, hm, h]
  · intro h
    simp [handleShortPress, enterHandler, emit, showSystemInfo, hm, h]
  · intro h
    have h5 : (enterHandler w .handleShortPress r.handler).currentState = STATE_MENU := hm
    have h6 : (enterHandler w .handleShortPress r.handler).selectedMenuItem = 3 := h
    simp only [handleShortPress, h5, h6]
    exact hex.1

/-- C5 in the menu reached from the slideshow by one short press. -/
theorem menu_transitions_witness :
    (runTicks started [readsAt LOW 1000, readsAt HIGH 1100]).currentState = STATE_MENU ∧
    (handleLongPress (runTicks started [readsAt LOW 1000, readsAt HIGH 1100])
      (readsAt LOW 2000)).selectedMenuItem = 1 ∧
    (handleShortPress (runTicks started [readsAt LOW 1000, readsAt HIGH 1100])
      (readsAt LOW 2000)).currentState = STATE_SETTING_INTERVAL :=
  ⟨by decide,
    (menu_transitions (runTicks started [readsAt LOW 1000, readsAt HIGH 1100]) (readsAt LOW 2000)
      (readsAt LOW 2000) (readsAt LOW 2000) (readsAt LOW 2000) (by decide) (by decide)).2.1,
    (menu_transitions (runTicks started [readsAt LOW 1000, readsAt HIGH 1100]) (readsAt LOW 2000)
      (readsAt LOW 2000) (readsAt LOW 2000) (readsAt LOW 2000) (by decide)
      (by decide)).2.2.2.2.2.2.2.1 (by decide)⟩

theorem steppedBrightness_up (b : Nat) (hb : 20 ≤ b ∧ b ≤ 255) :
    steppedBrightness b 1 = ((min (b + 10) 255 : Nat) : Int) := by
  unfold steppedBrightness
  simp only [MIN_BRIGHTNESS, MAX_BRIGHTNESS, BRIGHTNESS_STEP]
  split_ifs <;> omega

theorem steppedBrightness_down (b : Nat) (hb : 20 ≤ b ∧ b ≤ 255) :
    steppedBrightness b (-1) = ((max (b - 10) 20 : Nat) : Int) := by
  unfold steppedBrightness
  simp only [MIN_BRIGHTNESS, MAX_BRIGHTNESS, BRIGHTNESS_STEP]
  split_ifs <;> omega

theorem set_brightness_eq (w : World) (l : Nat) (h : 20 ≤ l ∧ l ≤ 255) :
    set_brightness w l = emit w (.ledcWrite l) := by
  unfold set_brightness
  simp only [MIN_BRIGHTNESS, MAX_BRIGHTNESS]
  have h1 : ¬ ((l : Int) < 20) := by omega
  rw [if_neg h1, if_neg (by omega)]

theorem saveBrightnessToSD_eq (w : World) :
    saveBrightnessToSD w =
      emit { w with sd := if w.sd.available && w.sd.writeOk then
                { w.sd with brightnessFile := some (printNat w.currentBrightness) } else w.sd }
        (.saveBrightnessToSD w.currentBrightness (w.sd.available && w.sd.writeOk)) := by
  unfold saveBrightnessToSD
  rcases Bool.eq_false_or_eq_true w.sd.available with h1 | h1 <;>
    rcases Bool.eq_false_or_eq_true w.sd.writeOk with h2 | h2 <;> simp [h1, h2]

/-- What `adjustBrightness` does when the stepped and clamped value `nb`
differs from the current brightness. -/
theorem adjustBrightness_changed (w : World) (d : Int) (nb : Nat) (h : 20 ≤ nb ∧ nb ≤ 255)
    (hv : steppedBrightness w.currentBrightness d = (nb : Int)) (hne : nb ≠ w.currentBrightness) :
    adjustBrightness w d =
      { w with
        currentBrightness := nb,
        sd := if w.sd.available && w.sd.writeOk then
            { w.sd with brightnessFile := some (printNat nb) } else w.sd,
        log := w.log ++ [.ledcWrite nb, .saveBrightnessToSD nb (w.sd.available && w.sd.writeOk),
          .showBrightnessSetting nb] } := by
  unfold adjustBrightness
  have h1 : toU8 (nb : Int) = nb := by unfold toU8; omega
  simp only [hv, h1]
  rw [if_pos (by exact_mod_cast hne)]
  rw [set_brightness_eq _ _ h, saveBrightnessToSD_eq]
  simp [showBrightnessSetting, emit]

/-- When the stepped and clamped value equals the current brightness,
`adjustBrightness` does nothing. -/
theorem adjustBrightness_same (w : World) (d : Int)
    (hv : steppedBrightness w.currentBrightness d = (w.currentBrightness : Int)) :
    adjustBrightness w d = w := by
  unfold adjustBrightness
  simp [hv]

/-- Every state `runLoop` ends in is reachable when the first one is. -/
theorem reachable_runLoop :
    ∀ (rs : List Reads) (w w1 : World), Reachable w → runLoop w rs = some w1 → Reachable w1
  | [], w, w1, hw, h => by
    have h2 : some w = some w1 := h
    exact Option.some.inj h2 ▸ hw
  | r :: rs, w, w1, hw, h => by
    have h2 : (match loop w r with
      | none => none
      | some w2 => runLoop w2 rs) = some w1 := h
    cases hl : loop w r with
    | none => rw [hl] at h2; cases h2
    | some w2 =>
      rw [hl] at h2
      exact reachable_runLoop rs w2 w1 (Reachable.tick w r w2 hw hl) h2

/-- C6. For every brightness `b` in `20 .. 255`, `adjustBrightness(+1)` leaves
`min (b + 10) 255` and `adjustBrightness(-1)` leaves `max (b - 10) 20`, both in
`20 .. 255`; any number of increases at 255 keeps 255 and any number of
decreases at 20 keeps 20. -/
theorem brightness_clamps (w : World)
    (hb : 20 ≤ w.currentBrightness ∧ w.currentBrightness ≤ 255) :
    (adjustBrightness w 1).currentBrightness = min (w.currentBrightness + 10) 255 ∧
    (adjustBrightness w (-1)).currentBrightness = max (w.currentBrightness - 10) 20 ∧
    20 ≤ (adjustBrightness w 1).currentBrightness ∧
    (adjustBrightness w 1).currentBrightness ≤ 255 ∧
    20 ≤ (adjustBrightness w (-1)).currentBrightness ∧
    (adjustBrightness w (-1)).currentBrightness ≤ 255 ∧
    (w.currentBrightness = 255 →
      ∀ k : Nat, ((fun v => adjustBrightness v 1)^[k] w).currentBrightness = 255) ∧
    (w.currentBrightness = 20 →
      ∀ k : Nat, ((fun v => adjustBrightness v (-1))^[k] w).currentBrightness = 20) := by
  have hup : (adjustBrightness w 1).currentBrightness = min (w.currentBrightness + 10) 255 := by
    by_cases hne : min (w.currentBrightness + 10) 255 = w.currentBrightness
    · rw [adjustBrightness_same w 1 (by rw [steppedBrightness_up _ hb, hne])]
      exact hne.symm
    · rw [adjustBrightness_changed w 1 _ (by omega) (steppedBrightness_up _ hb) hne]
  have hdown : (adjustBrightness w (-1)).currentBrightness = max (w.currentBrightness - 10) 20 := by
    by_cases hne : max (w.currentBrightness - 10) 20 = w.currentBrightness
    · rw [adjustBrightness_same w (-1) (by rw [steppedBrightness_down _ hb, hne])]
      exact hne.symm
    · rw [adjustBrightness_changed w (-1) _ (by omega) (steppedBrightness_down _ hb) hne]
  refine ⟨hup, hdown, by omega, by omega, by omega, by omega, ?_, ?_⟩
  · intro h k
    have hfix : adjustBrightness w 1 = w :=
      adjustBrightness_same w 1 (by rw [steppedBrightness_up _ hb, h]; rfl)
    rw [Function.iterate_fixed hfix k, h]
  · intro h k
    have hfix : adjustBrightness w (-1) = w :=
      adjustBrightness_same w (-1) (by rw [steppedBrightness_down _ hb, h]; rfl)
    rw [Function.iterate_fixed hfix k, h]

/-- C6 at the start-up brightness 128: up to 138, down to 118. -/
theorem brightness_clamps_witness :
    (adjustBrightness started 1).currentBrightness = min (started.currentBrightness + 10) 255 ∧
    (adjustBrightness started (-1)).currentBrightness = max (started.currentBrightness - 10) 20 ∧
    (adjustBrightness started 1).currentBrightness = 138 ∧
    (adjustBrightness started (-1)).currentBrightness = 118 :=
  ⟨(brightness_clamps started (by decide)).1, (brightness_clamps started (by decide)).2.1,
    by decide, by decide⟩

/-- C7, as the code has it. In the brightness screen, with brightness `b` in
`20 .. 255`: a short press at `b < 255` sets the brightness to
`min (b + 10) 255`, writes it to the backlight, calls `saveBrightnessToSD` with
it (the file then holds it when the card can be written) and renders the
screen again; a short press at 255 changes nothing and makes none of these
calls. A long press does the same with `max (b - 10) 20`, and nothing at 20. -/
theorem brightness_press (w : World) (r : Reads) (hm : w.currentState = STATE_SETTING_BRIGHTNESS)
    (hb : 20 ≤ w.currentBrightness ∧ w.currentBrightness ≤ 255) :
    (w.currentBrightness < 255 →
      (handleShortPress w r).currentBrightness = min (w.currentBrightness + 10) 255 ∧
      (handleShortPress w r).log = w.log ++ [.handleShortPress,
        .ledcWrite (min (w.currentBrightness + 10) 255),
        .saveBrightnessToSD (min (w.currentBrightness + 10) 255) (w.sd.available && w.sd.writeOk),
        .showBrightnessSetting (min (w.currentBrightness + 10) 255)] ∧
      (w.sd.available = true → w.sd.writeOk = true → (handleShortPress w r).sd.brightnessFile
        = some (printNat (min (w.currentBrightness + 10) 255)))) ∧
    (w.currentBrightness = 255 →
      (handleShortPress w r).currentBrightness = 255 ∧
      (handleShortPress w r).log = w.log ++ [.handleShortPress] ∧
      (handleShortPress w r).sd = w.sd) ∧
    (20 < w.currentBrightness →
      (handleLongPress w r).currentBrightness = max (w.currentBrightness - 10) 20 ∧
      (handleLongPress w r).log = w.log ++ [.handleLongPress,
        .ledcWrite (max (w.currentBrightness - 10) 20),
        .saveBrightnessToSD (max (w.currentBrightness - 10) 20) (w.sd.available && w.sd.writeOk),
        .showBrightnessSetting (max (w.currentBrightness - 10) 20)] ∧
      (w.sd.available = true → w.sd.writeOk = true → (handleLongPress w r).sd.brightnessFile
        = some (printNat (max (w.currentBrightness - 10) 20)))) ∧
    (w.currentBrightness = 20 →
      (handleLongPress w r).currentBrightness = 20 ∧
      (handleLongPress w r).log = w.log ++ [.handleLongPress] ∧
      (handleLongPress w r).sd = w.sd) ∧
    (handleShortPress w r).currentState = STATE_SETTING_BRIGHTNESS ∧
    (handleLongPress w r).currentState = STATE_SETTING_BRIGHTNESS := by
  have hs : handleShortPress w r =
      adjustBrightness (enterHandler w .handleShortPress r.handler) 1 := by
    have h5 : (enterHandler w .handleShortPress r.handler).currentState
        = STATE_SETTING_BRIGHTNESS := hm
    simp only [handleShortPress, h5]
  have hl : handleLongPress w r =
      adjustBrightness (enterHandler w .handleLongPress r.handler) (-1) := by
    have h5 : (enterHandler w .handleLongPress r.handler).currentState
        = STATE_SETTING_BRIGHTNESS := hm
    simp only [handleLongPress, h5]
  rw [hs, hl]
  have up : steppedBrightness (enterHandler w .handleShortPress r.handler).currentBrightness 1
      = ((min (w.currentBrightness + 10) 255 : Nat) : Int) :=
    steppedBrightness_up w.currentBrightness hb
  have down : steppedBrightness (enterHandler w .handleLongPress r.handler).currentBrightness (-1)
      = ((max (w.currentBrightness - 10) 20 : Nat) : Int) :=
    steppedBrightness_down w.currentBrightness hb
  have e1 : (enterHandler w .handleShortPress r.handler).currentBrightness
      = w.currentBrightness := rfl
  have e2 : (enterHandler w .handleLongPress r.handler).currentBrightness
      = w.currentBrightness := rfl
  refine ⟨?_, ?_, ?_, ?_, ?_, ?_⟩
  · intro h
    rw [adjustBrightness_changed _ 1 (min (w.currentBrightness + 10) 255) (by omega) up
      (by rw [e1]; omega)]
    refine ⟨rfl, by simp [enterHandler, emit], ?_⟩
    intro h1 h2
    simp [enterHandler, emit, h1, h2]
  · intro h
    rw [adjustBrightness_same _ 1 (by rw [up, e1, h]; rfl)]
    exact ⟨h, rfl, rfl⟩
  · intro h
    rw [adjustBrightness_changed _ (-1) (max (w.currentBrightness - 10) 20) (by omega) down
      (by rw [e2]; omega)]
    refine ⟨rfl, by simp [enterHandler, emit], ?_⟩
    intro h1 h2
    simp [enterHandler, emit, h1, h2]
  · intro h
    rw [adjustBrightness_same _ (-1) (by rw [down, e2, h]; rfl)]
    exact ⟨h, rfl, rfl⟩
  · by_cases hne : min (w.currentBrightness + 10) 255 = w.currentBrightness
    · rw [adjustBrightness_same _ 1 (by rw [up, e1, hne])]
      exact hm
    · rw [adjustBrightness_changed _ 1 (min (w.currentBrightness + 10) 255) (by omega) up
        (by rw [e1]; exact hne)]
      exact hm
  · by_cases hne : max (w.currentBrightness - 10) 20 = w.currentBrightness
    · rw [adjustBrightness_same _ (-1) (by rw [down, e2, hne])]
      exact hm
    · rw [adjustBrightness_changed _ (-1) (max (w.currentBrightness - 10) 20) (by omega) down
        (by rw [e2]; exact hne)]
      exact hm

/-- C7 at brightness 128 in the brightness screen: a short press gives 138,
written to the backlight, saved and rendered. -/
theorem brightness_press_witness :
    (runTicks started toBrightnessScreen).currentBrightness = 128 ∧
    (handleShortPress (runTicks started toBrightnessScreen) (readsAt HIGH 4100)).currentBrightness
      = 138 ∧
    (handleShortPress (runTicks started toBrightnessScreen) (readsAt HIGH 4100)).log
      = (runTicks started toBrightnessScreen).log ++ [.handleShortPress, .ledcWrite 138,
          .saveBrightnessToSD 138 true, .showBrightnessSetting 138] ∧
    (handleShortPress (runTicks started toBrightnessScreen) (readsAt HIGH 4100)).sd.brightnessFile
      = some "138" :=
  ⟨by decide,
    ((brightness_press (runTicks started toBrightnessScreen) (readsAt HIGH 4100) (by decide)
      (by decide)).1 (by decide)).1,
    ((brightness_press (runTicks started toBrightnessScreen) (readsAt HIGH 4100) (by decide)
      (by decide)).1 (by decide)).2.1,
    ((brightness_press (runTicks started toBrightnessScreen) (readsAt HIGH 4100) (by decide)
      (by decide)).1 (by decide)).2.2 (by decide) (by decide)⟩

/-- C7 fails as stated: in the brightness screen at brightness 255, a state the
device reaches, a short press neither saves nor applies nor renders anything. -/
theorem brightness_press_at_255 :
    ∃ w, Reachable w ∧ w.currentState = STATE_SETTING_BRIGHTNESS ∧ w.currentBrightness = 255 ∧
      (handleShortPress w (readsAt HIGH 5100)).log = w.log ++ [.handleShortPress] ∧
      (handleShortPress w (readsAt HIGH 5100)).sd = w.sd :=
  ⟨runTicks startedBright (toBrightnessScreen ++ [readsAt LOW 4000, readsAt HIGH 4100]),
    reachable_runLoop (toBrightnessScreen ++ [readsAt LOW 4000, readsAt HIGH 4100]) startedBright _
      (Reachable.start _ _ _) rfl,
    by decide, by decide, by decide, by decide⟩

/-- C4, as the code has it. In the slideshow, a short press enters the menu and
leaves `selectedMenuItem` as it was (it is not reset); the menu is rendered
with 4 items and that index, so with index 0 exactly when it was 0 before. -/
theorem menu_entry (w : World) (r : Reads) (hm : w.currentState = STATE_SLIDESHOW) :
    (handleShortPress w r).currentState = STATE_MENU ∧
    (handleShortPress w r).selectedMenuItem = w.selectedMenuItem ∧
    (handleShortPress w r).log
      = w.log ++ [.handleShortPress, .showMainMenu 4 w.selectedMenuItem] ∧
    (w.selectedMenuItem = 0 →
      (handleShortPress w r).selectedMenuItem = 0 ∧
      (handleShortPress w r).log = w.log ++ [.handleShortPress, .showMainMenu 4 0]) := by
  have h5 : (enterHandler w .handleShortPress r.handler).currentState = STATE_SLIDESHOW := hm
  have he : handleShortPress w r = showMainMenu
      { enterHandler w .handleShortPress r.handler with currentState := STATE_MENU } := by
    simp only [handleShortPress, h5]
  rw [he]
  refine ⟨rfl, rfl, by simp [showMainMenu, enterHandler, emit, menuItemCount], ?_⟩
  intro h0
  refine ⟨h0, ?_⟩
  simp [showMainMenu, enterHandler, emit, menuItemCount, h0]

/-- C4 right after start-up: the first short press shows the menu at item 0. -/
theorem menu_entry_witness :
    started.currentState = STATE_SLIDESHOW ∧
    (handleShortPress started (readsAt HIGH 1100)).currentState = STATE_MENU ∧
    (handleShortPress started (readsAt HIGH 1100)).selectedMenuItem = 0 ∧
    (handleShortPress started (readsAt HIGH 1100)).log
      = started.log ++ [.handleShortPress, .showMainMenu 4 0] :=
  ⟨by decide, (menu_entry started (readsAt HIGH 1100) (by decide)).1,
    ((menu_entry started (readsAt HIGH 1100) (by decide)).2.2.2 (by decide)).1,
    ((menu_entry started (readsAt HIGH 1100) (by decide)).2.2.2 (by decide)).2⟩

/-- C4 fails as stated: after a menu visit that moved the selection to item 1
and timed out, the device is back in the slideshow, and the next short press
shows the menu with item 1 selected, not item 0. -/
theorem menu_entry_keeps_selection :
    ∃ w, Reachable w ∧ w.currentState = STATE_SLIDESHOW ∧
      (handleShortPress w (readsAt HIGH 14100)).currentState = STATE_MENU ∧
      (handleShortPress w (readsAt HIGH 14100)).selectedMenuItem = 1 ∧
      (handleShortPress w (readsAt HIGH 14100)).log
        = w.log ++ [.handleShortPress, .showMainMenu 4 1] :=
  ⟨runTicks started menuVisit,
    reachable_runLoop menuVisit started _ (Reachable.start _ _ _) rfl,
    by decide, by decide, by decide, by decide⟩

/-- The "advance" expression `(i + 1) % 7u` of the source, for an index in range. -/
theorem advance_index (i : Int) (h : 0 ≤ i ∧ i ≤ 6) :
    toI32 (toU32 (i + 1) % intervalCount) = (i + 1) % 7 := by
  obtain ⟨h0, h6⟩ := h
  interval_cases i <;> decide

/-- The "retreat" expression `(i - 1 + 7u) % 7u` of the source, for an index in
range; at `i = 0` the sum wraps around `2^32`. -/
theorem retreat_index (i : Int) (h : 0 ≤ i ∧ i ≤ 6) :
    toI32 (((toU32 (i - 1) + intervalCount) % two32) % intervalCount) = (i + 6) % 7 := by
  obtain ⟨h0, h6⟩ := h
  interval_cases i <;> decide

theorem saveIntervalToSD_eq (w : World) :
    saveIntervalToSD w =
      emit { w with sd := if w.sd.available && w.sd.writeOk then
                { w.sd with intervalFile := some (printInt w.currentIntervalIndex) } else w.sd }
        (.saveIntervalToSD w.currentIntervalIndex (w.sd.available && w.sd.writeOk)) := by
  unfold saveIntervalToSD
  rcases Bool.eq_false_or_eq_true w.sd.available with h1 | h1 <;>
    rcases Bool.eq_false_or_eq_true w.sd.writeOk with h2 | h2 <;> simp [h1, h2]

theorem showMessage_index (w : World) (m : String) (t : Nat) :
    (showMessage w m t).currentIntervalIndex = w.currentIntervalIndex := by
  unfold showMessage
  split_ifs <;> rfl

theorem changeInterval_index (w : World) (t1 t2 : Nat) :
    (changeInterval w t1 t2).currentIntervalIndex
      = toI32 (toU32 (w.currentIntervalIndex + 1) % intervalCount) := by
  unfold changeInterval
  simp only [showMessage_index, saveIntervalToSD_eq, emit]

theorem adjustInterval_index (w : World) (d : Int) :
    (adjustInterval w d).currentIntervalIndex =
      if d > 0 then toI32 (toU32 (w.currentIntervalIndex + 1) % intervalCount)
      else toI32 (((toU32 (w.currentIntervalIndex - 1) + intervalCount) % two32) % intervalCount) := by
  unfold adjustInterval
  simp only [showIntervalSetting, saveIntervalToSD_eq, emit]
  split_ifs <;> rfl

/-- C8. For every interval index `i` in `0 .. 6`, with the source's mixed
`int` / `size_t` arithmetic: `adjustInterval(+1)` and `changeInterval` give
`(i + 1) mod 7`, so 6 advances to 0; `adjustInterval(-1)` gives `(i + 6) mod 7`,
so 0 retreats to 6. -/
theorem interval_wraps (w : World) (t1 t2 : Nat)
    (hi : 0 ≤ w.currentIntervalIndex ∧ w.currentIntervalIndex ≤ 6) :
    (adjustInterval w 1).currentIntervalIndex = (w.currentIntervalIndex + 1) % 7 ∧
    (changeInterval w t1 t2).currentIntervalIndex = (w.currentIntervalIndex + 1) % 7 ∧
    (adjustInterval w (-1)).currentIntervalIndex = (w.currentIntervalIndex + 6) % 7 ∧
    (w.currentIntervalIndex = 6 →
      (adjustInterval w 1).currentIntervalIndex = 0 ∧
      (changeInterval w t1 t2).currentIntervalIndex = 0) ∧
    (w.currentIntervalIndex = 0 → (adjustInterval w (-1)).currentIntervalIndex = 6) := by
  have a := advance_index _ hi
  have b := retreat_index _ hi
  have h1 : (adjustInterval w 1).currentIntervalIndex = (w.currentIntervalIndex + 1) % 7 := by
    rw [adjustInterval_index, if_pos (by decide), a]
  have h2 : (changeInterval w t1 t2).currentIntervalIndex = (w.currentIntervalIndex + 1) % 7 := by
    rw [changeInterval_index, a]
  have h3 : (adjustInterval w (-1)).currentIntervalIndex = (w.currentIntervalIndex + 6) % 7 := by
    rw [adjustInterval_index, if_neg (by decide), b]
  refine ⟨h1, h2, h3, ?_, ?_⟩
  · intro h
    rw [h1, h2, h]
    exact ⟨by decide, by decide⟩
  · intro h
    rw [h3, h]
    decide

/-- C8 at the last index: start-up with index 3, three advances reach 6, the
next one wraps to 0. -/
theorem interval_wraps_witness :
    (adjustInterval (adjustInterval (adjustInterval started 1) 1) 1).currentIntervalIndex = 6 ∧
    (adjustInterval (adjustInterval (adjustInterval (adjustInterval started 1) 1) 1)
      1).currentIntervalIndex = 0 ∧
    (changeInterval (adjustInterval (adjustInterval (adjustInterval started 1) 1) 1)
      5000 5000).currentIntervalIndex = 0 :=
  ⟨by decide,
    ((interval_wraps (adjustInterval (adjustInterval (adjustInterval started 1) 1) 1) 5000 5000
      (by decide)).2.2.2.1 (by decide)).1,
    ((interval_wraps (adjustInterval (adjustInterval (adjustInterval started 1) 1) 1) 5000 5000
      (by decide)).2.2.2.1 (by decide)).2⟩

/-- The value of `toInt` fits a 32-bit `int`. -/
theorem toInt_bounds (s : String) : -2147483648 ≤ toInt s ∧ toInt s ≤ 2147483647 := by
  unfold toInt parseSigned
  split <;> omega

/-- The range test of `loadIntervalFromSD` accepts exactly the values `0 .. 6`. -/
theorem index_test (s : String) :
    (toInt s ≥ 0 && toU32 (toInt s) < intervalCount) = true ↔ 0 ≤ toInt s ∧ toInt s ≤ 6 := by
  have hb := toInt_bounds s
  have hc : intervalCount = 7 := rfl
  simp only [Bool.and_eq_true, decide_eq_true_eq, hc, toU32]
  omega

theorem defaultInterval_eq (w : World) :
    defaultInterval w =
      { w with
        currentIntervalIndex := 2,
        slideshowInterval := 60000,
        sd := if w.sd.available && w.sd.writeOk then
            { w.sd with intervalFile := some "2" } else w.sd,
        log := w.log ++ [.saveIntervalToSD 2 (w.sd.available && w.sd.writeOk)] } := by
  unfold defaultInterval
  rw [saveIntervalToSD_eq]
  rfl

/-- C10. When the card is available and the interval file holds a text whose
integer value is outside `0 .. 6`, `loadIntervalFromSD` sets the index to
`INTERVAL_DEFAULT_INDEX` (2) and the interval to 60000 ms and at once calls
`saveIntervalToSD` with the default index; when the file can be written it then
holds "2". -/
theorem load_interval_out_of_range (w : World) (text : String) (ha : w.sd.available = true)
    (hf : w.sd.intervalFile = some text) (hr : w.sd.readOk = true)
    (hv : toInt text < 0 ∨ 6 < toInt text) :
    (loadIntervalFromSD w).currentIntervalIndex = INTERVAL_DEFAULT_INDEX ∧
    (loadIntervalFromSD w).currentIntervalIndex = 2 ∧
    (loadIntervalFromSD w).slideshowInterval = 60000 ∧
    (loadIntervalFromSD w).log = w.log ++ [.saveIntervalToSD 2 w.sd.writeOk] ∧
    (w.sd.writeOk = true → (loadIntervalFromSD w).sd.intervalFile = some "2") := by
  have ht : ¬ ((toInt text ≥ 0 && toU32 (toInt text) < intervalCount) = true) := by
    rw [index_test]
    omega
  have he : loadIntervalFromSD w = defaultInterval w := by
    unfold loadIntervalFromSD
    simp only [ha, hf, hr, Bool.not_true, Bool.false_eq_true, if_false, if_true]
    rw [if_neg ht]
  rw [he, defaultInterval_eq]
  refine ⟨rfl, rfl, rfl, by simp [ha], ?_⟩
  intro hw
  simp [ha, hw]

/-- C10 on the stored text "99". -/
theorem load_interval_out_of_range_witness :
    toInt "99" = 99 ∧
    (loadIntervalFromSD (boot { sampleCard with intervalFile := some "99" }
      sampleEntropy)).currentIntervalIndex = 2 ∧
    (loadIntervalFromSD (boot { sampleCard with intervalFile := some "99" }
      sampleEntropy)).slideshowInterval = 60000 ∧
    (loadIntervalFromSD (boot { sampleCard with intervalFile := some "99" }
      sampleEntropy)).log = [.saveIntervalToSD 2 true] ∧
    (loadIntervalFromSD (boot { sampleCard with intervalFile := some "99" }
      sampleEntropy)).sd.intervalFile = some "2" :=
  ⟨by decide,
    (load_interval_out_of_range (boot { sampleCard with intervalFile := some "99" } sampleEntropy)
      "99" rfl rfl rfl (by decide)).2.1,
    (load_interval_out_of_range (boot { sampleCard with intervalFile := some "99" } sampleEntropy)
      "99" rfl rfl rfl (by decide)).2.2.1,
    (load_interval_out_of_range (boot { sampleCard with intervalFile := some "99" } sampleEntropy)
      "99" rfl rfl rfl (by decide)).2.2.2.1,
    (load_interval_out_of_range (boot { sampleCard with intervalFile := some "99" } sampleEntropy)
      "99" rfl rfl rfl (by decide)).2.2.2.2 rfl⟩

/-! ## The interval index stays within the table -/

theorem keeps_refl (w : World) : KeepsIndex w w := ⟨rfl, fun _ _ h => h⟩

theorem keeps_trans {a b c : World} (h1 : KeepsIndex a b) (h2 : KeepsIndex b c) :
    KeepsIndex a c :=
  ⟨h2.index.trans h1.index, fun v x h => h1.saves v x (h2.saves v x h)⟩

theorem keeps_inv {w w1 : World} (h : KeepsIndex w w1) (hw : IndexInv w) : IndexInv w1 :=
  ⟨by rw [h.index]; exact hw.1, fun v b hm => hw.2 v b (h.saves v b hm)⟩

theorem keeps_emit (w : World) (e : Effect) (he : ∀ v b, e ≠ .saveIntervalToSD v b) :
    KeepsIndex w (emit w e) := by
  refine ⟨rfl, fun v b h => ?_⟩
  simp only [emit, List.mem_append, List.mem_singleton] at h
  rcases h with h | h
  · exact h
  · exact absurd h.symm (he v b)

theorem keeps_drawJpeg (w : World) (p : String) : KeepsIndex w (drawJpeg w p) := by
  unfold drawJpeg
  split_ifs
  · exact keeps_emit w _ (by simp)
  · exact keeps_emit w _ (by simp)

theorem keeps_displayImage (w : World) (i : Int) (t : Nat) : KeepsIndex w (displayImage w i t) := by
  unfold displayImage
  split_ifs
  · exact keeps_refl w
  · exact keeps_trans
      (keeps_trans (b := { w with currentImageIndex := clampIndex w.imageFiles.length i })
        ⟨rfl, fun _ _ h => h⟩ (keeps_drawJpeg _ _)) ⟨rfl, fun _ _ h => h⟩

theorem keeps_exitToSlideshow (w : World) (t : Nat) : KeepsIndex w (exitToSlideshow w t) := by
  unfold exitToSlideshow
  dsimp only
  split_ifs
  · exact keeps_trans (b := { w with currentState := STATE_SLIDESHOW })
      ⟨rfl, fun _ _ h => h⟩ (keeps_displayImage _ _ _)
  · exact keeps_trans (b := { w with currentState := STATE_SLIDESHOW })
      ⟨rfl, fun _ _ h => h⟩ (keeps_emit _ _ (by simp))

theorem keeps_showMessage (w : World) (m : String) (t : Nat) :
    KeepsIndex w (showMessage w m t) := by
  unfold showMessage
  split_ifs
  · exact keeps_refl w
  · exact keeps_trans (keeps_emit w _ (by simp)) ⟨rfl, fun _ _ h => h⟩

theorem keeps_hideMessage (w : World) (t : Nat) : KeepsIndex w (hideMessage w t) := by
  unfold hideMessage
  dsimp only
  split_ifs
  · exact keeps_trans (keeps_displayImage _ _ _) ⟨rfl, fun _ _ h => h⟩
  · exact ⟨rfl, fun _ _ h => h⟩
  · exact keeps_refl w

theorem keeps_showMainMenu (w : World) : KeepsIndex w (showMainMenu w) :=
  keeps_emit w _ (by simp)

theorem keeps_set_brightness (w : World) (l : Nat) : KeepsIndex w (set_brightness w l) :=
  keeps_emit w _ (by simp)

theorem keeps_saveBrightnessToSD (w : World) : KeepsIndex w (saveBrightnessToSD w) := by
  rw [saveBrightnessToSD_eq]
  refine keeps_trans ?_ (keeps_emit _ _ (by simp))
  exact ⟨rfl, fun _ _ h => h⟩

theorem keeps_defaultBrightness (w : World) : KeepsIndex w (defaultBrightness w) := by
  unfold defaultBrightness
  exact keeps_trans (keeps_trans (b := { w with currentBrightness := BRIGHTNESS_DEFAULT })
    ⟨rfl, fun _ _ h => h⟩ (keeps_set_brightness _ _)) (keeps_saveBrightnessToSD _)

theorem keeps_loadBrightnessFromSD (w : World) : KeepsIndex w (loadBrightnessFromSD w) := by
  unfold loadBrightnessFromSD
  split
  · refine keeps_trans ?_ (keeps_set_brightness _ _)
    exact ⟨rfl, fun _ _ h => h⟩
  · split
    · split
      · dsimp only
        split
        · refine keeps_trans ?_ (keeps_set_brightness _ _)
          exact ⟨rfl, fun _ _ h => h⟩
        · exact keeps_defaultBrightness w
      · exact keeps_defaultBrightness w
    · exact keeps_defaultBrightness w

theorem keeps_adjustBrightness (w : World) (d : Int) : KeepsIndex w (adjustBrightness w d) := by
  unfold adjustBrightness
  dsimp only
  split_ifs
  · exact keeps_trans (keeps_trans (keeps_trans
      (b := { w with currentBrightness := toU8 (steppedBrightness w.currentBrightness d) })
      ⟨rfl, fun _ _ h => h⟩ (keeps_set_brightness _ _)) (keeps_saveBrightnessToSD _))
      (keeps_emit _ _ (by simp))
  · exact keeps_refl w

theorem keeps_reshuffle (w : World) : KeepsIndex w (reshuffle w) := ⟨rfl, fun _ _ h => h⟩

theorem keeps_initRandomSlideshow (w : World) : KeepsIndex w (initRandomSlideshow w) := by
  unfold initRandomSlideshow
  split_ifs
  · exact keeps_refl w
  · exact ⟨rfl, fun _ _ h => h⟩

theorem keeps_getNextRandomImage (w w1 : World) (i : Int)
    (h : getNextRandomImage w = some (i, w1)) : KeepsIndex w w1 := by
  unfold getNextRandomImage at h
  split_ifs at h
  · cases h; exact keeps_refl w
  · split at h
    · cases h
    · dsimp only at h
      split_ifs at h <;> cases h <;> exact ⟨rfl, fun _ _ h => h⟩

theorem keeps_findImageFiles (w : World) (i : SetupInputs) : KeepsIndex w (findImageFiles w i) := by
  unfold findImageFiles
  dsimp only
  split_ifs <;> exact ⟨rfl, fun _ _ h => h⟩

theorem inv_saveIntervalToSD (w : World) (h : IndexInv w) : IndexInv (saveIntervalToSD w) := by
  rw [saveIntervalToSD_eq]
  refine ⟨h.1, fun v b hm => ?_⟩
  simp only [emit, List.mem_append, List.mem_singleton] at hm
  rcases hm with hm | hm
  · exact h.2 v b hm
  · cases hm
    exact h.1

/-- Setting the index to a value of the table and saving keeps the invariant. -/
theorem inv_setIndex (w : World) (i : Int) (n : Nat) (hi : 0 ≤ i ∧ i ≤ 6) (h : IndexInv w) :
    IndexInv (saveIntervalToSD { w with currentIntervalIndex := i, slideshowInterval := n }) :=
  inv_saveIntervalToSD _ ⟨hi, h.2⟩

theorem inv_loadIntervalFromSD (w : World) (h : IndexInv w) : IndexInv (loadIntervalFromSD w) := by
  have hd : IndexInv (defaultInterval w) := inv_setIndex w 2 _ (by decide) h
  unfold loadIntervalFromSD
  split
  · refine ⟨?_, h.2⟩
    show (0 : Int) ≤ INTERVAL_DEFAULT_INDEX ∧ INTERVAL_DEFAULT_INDEX ≤ 6
    decide
  · split
    · split
      · dsimp only
        split
        · rename_i hs
          exact ⟨(index_test _).mp hs, h.2⟩
        · exact hd
      · exact hd
    · exact hd

theorem inv_changeInterval (w : World) (t1 t2 : Nat) (h : IndexInv w) :
    IndexInv (changeInterval w t1 t2) := by
  unfold changeInterval
  dsimp only
  have h1 := advance_index _ h.1
  have h2 : (0 : Int) ≤ (w.currentIntervalIndex + 1) % 7 ∧ (w.currentIntervalIndex + 1) % 7 ≤ 6 := by
    omega
  have h3 := inv_setIndex w (toI32 (toU32 (w.currentIntervalIndex + 1) % intervalCount))
    (intervalAt (toI32 (toU32 (w.currentIntervalIndex + 1) % intervalCount)))
    (by rw [h1]; exact h2) h
  exact keeps_inv (keeps_trans (keeps_showMessage _ _ _) ⟨rfl, fun _ _ x => x⟩) h3

theorem inv_adjustInterval (w : World) (d : Int) (h : IndexInv w) :
    IndexInv (adjustInterval w d) := by
  unfold adjustInterval
  dsimp only
  have h1 := advance_index _ h.1
  have h2 := retreat_index _ h.1
  refine keeps_inv (keeps_emit _ _ (by simp)) ?_
  split_ifs
  · exact inv_setIndex w (toI32 (toU32 (w.currentIntervalIndex + 1) % intervalCount)) _
      (by rw [h1]; omega) h
  · exact inv_setIndex w
      (toI32 (((toU32 (w.currentIntervalIndex - 1) + intervalCount) % two32) % intervalCount)) _
      (by rw [h2]; omega) h

theorem inv_handleShortPress (w : World) (r : Reads) (h : IndexInv w) :
    IndexInv (handleShortPress w r) := by
  have h0 : IndexInv (enterHandler w .handleShortPress r.handler) :=
    keeps_inv (keeps_trans (keeps_emit w _ (by simp)) ⟨rfl, fun _ _ x => x⟩) h
  unfold handleShortPress
  dsimp only
  split
  · exact keeps_inv (keeps_trans (c := showMainMenu _) ⟨rfl, fun _ _ x => x⟩
      (keeps_showMainMenu _)) h0
  · split_ifs
    · exact keeps_inv (keeps_trans (c := showIntervalSetting _) ⟨rfl, fun _ _ x => x⟩
        (keeps_emit _ _ (by simp))) h0
    · exact keeps_inv (keeps_trans (c := showBrightnessSetting _) ⟨rfl, fun _ _ x => x⟩
        (keeps_emit _ _ (by simp))) h0
    · exact keeps_inv (keeps_trans (c := showSystemInfo _) ⟨rfl, fun _ _ x => x⟩
        (keeps_emit _ _ (by simp))) h0
    · exact keeps_inv (keeps_exitToSlideshow _ _) h0
    · exact h0
  · exact inv_adjustInterval _ _ h0
  · exact keeps_inv (keeps_adjustBrightness _ _) h0
  · exact keeps_inv (keeps_trans (c := showMainMenu _) ⟨rfl, fun _ _ x => x⟩
      (keeps_showMainMenu _)) h0

theorem inv_handleLongPress (w : World) (r : Reads) (h : IndexInv w) :
    IndexInv (handleLongPress w r) := by
  have h0 : IndexInv (enterHandler w .handleLongPress r.handler) :=
    keeps_inv (keeps_trans (keeps_emit w _ (by simp)) ⟨rfl, fun _ _ x => x⟩) h
  unfold handleLongPress
  dsimp only
  split
  · exact inv_changeInterval _ _ _ h0
  · exact keeps_inv (keeps_trans (c := showMainMenu _) ⟨rfl, fun _ _ x => x⟩
      (keeps_showMainMenu _)) h0
  · exact inv_adjustInterval _ _ h0
  · exact keeps_inv (keeps_adjustBrightness _ _) h0
  · exact keeps_inv (keeps_exitToSlideshow _ _) h0

theorem inv_processButtonInput (w : World) (r : Reads) (h : IndexInv w) :
    IndexInv (processButtonInput w r) := by
  have h1 : IndexInv (detectPress w r) := by
    unfold detectPress
    split_ifs
    · exact ⟨h.1, h.2⟩
    · exact h
  have hd : ∀ v : World, IndexInv v → IndexInv (dispatchRelease v r) := by
    intro v hv
    unfold dispatchRelease
    dsimp only
    split_ifs
    · exact inv_handleShortPress v r hv
    · exact hv
    · exact hv
  have h2 : IndexInv (detectRelease (detectPress w r) r) := by
    unfold detectRelease
    split_ifs
    · have := hd { detectPress w r with buttonReleaseTime := r.now } ⟨h1.1, h1.2⟩
      exact ⟨this.1, this.2⟩
    · exact h1
  have h3 : IndexInv (detectLongPress (detectRelease (detectPress w r) r) r) := by
    unfold detectLongPress
    split_ifs
    · exact inv_handleLongPress _ r ⟨h2.1, h2.2⟩
    · exact h2
  have h4 : IndexInv (classifyButton w r) := ⟨h3.1, h3.2⟩
  have h5 : IndexInv (settingTimeout (classifyButton w r) r) := by
    unfold settingTimeout
    split_ifs
    · exact keeps_inv (keeps_trans (c := showMainMenu _) ⟨rfl, fun _ _ x => x⟩
        (keeps_showMainMenu _)) h4
    · exact h4
    · exact h4
  unfold processButtonInput menuTimeout
  split_ifs
  · exact keeps_inv (keeps_exitToSlideshow _ _) h5
  · exact h5
  · exact h5

theorem inv_expireNotice (w : World) (r : Reads) (h : IndexInv w) :
    IndexInv (expireNotice w r) := by
  unfold expireNotice
  split_ifs
  · exact keeps_inv (keeps_hideMessage _ _) h
  · exact h

theorem inv_advanceSlideshow (w w1 : World) (r : Reads) (h : IndexInv w)
    (hl : advanceSlideshow w r = some w1) : IndexInv w1 := by
  unfold advanceSlideshow at hl
  split_ifs at hl
  · split at hl
    · cases hl
    · rename_i i w3 hg
      cases hl
      exact keeps_inv (keeps_trans (keeps_getNextRandomImage _ _ _ hg)
        (keeps_displayImage _ _ _)) h
  · cases hl; exact h
  · cases hl; exact h

theorem inv_loop (w w1 : World) (r : Reads) (h : IndexInv w) (hl : loop w r = some w1) :
    IndexInv w1 :=
  inv_advanceSlideshow _ w1 r (inv_expireNotice _ r (inv_processButtonInput w r h)) hl

theorem inv_boot (sd : SDCard) (entropy : Nat → Nat) : IndexInv (boot sd entropy) := by
  refine ⟨?_, fun v b h => ?_⟩
  · show (0 : Int) ≤ INTERVAL_DEFAULT_INDEX ∧ INTERVAL_DEFAULT_INDEX ≤ 6
    decide
  · cases h

theorem inv_setupImages (w : World) (i : SetupInputs) (h : IndexInv w) :
    IndexInv (setupImages w i) := by
  have h1 : IndexInv (findImageFiles w i) := keeps_inv (keeps_findImageFiles w i) h
  unfold setupImages
  dsimp only
  split_ifs
  · have h2 : IndexInv (hideLoadingScreen (initRandomSlideshow (findImageFiles w i))) :=
      keeps_inv (keeps_trans (keeps_initRandomSlideshow _) ⟨rfl, fun _ _ x => x⟩) h1
    have h3 := keeps_inv (keeps_displayImage
      (hideLoadingScreen (initRandomSlideshow (findImageFiles w i)))
      ((hideLoadingScreen (initRandomSlideshow (findImageFiles w i))).shuffledIndices.getD
        (hideLoadingScreen (initRandomSlideshow (findImageFiles w i))).currentShuffleIndex 0)
      i.firstImage) h2
    exact ⟨h3.1, h3.2⟩
  · exact ⟨h1.1, h1.2⟩

theorem inv_setup (w : World) (i : SetupInputs) (h : IndexInv w) : IndexInv (setup w i) := by
  have h0 : IndexInv (emit { w with showingLoading := true } .loadingScreen) :=
    keeps_inv (keeps_trans (b := { w with showingLoading := true })
      ⟨rfl, fun _ _ x => x⟩ (keeps_emit _ _ (by simp))) h
  have h1 : ∀ v : World, IndexInv v → IndexInv (initSDCard v i).2 := by
    intro v hv
    unfold initSDCard
    split_ifs
    · exact hv
    · exact keeps_inv (keeps_loadBrightnessFromSD _) (inv_loadIntervalFromSD v hv)
  have h2 : ∀ v : World, IndexInv v → IndexInv (showFatalError v) := by
    intro v hv
    unfold showFatalError
    split_ifs
    · exact keeps_inv (keeps_trans (b := hideLoadingScreen v)
        ⟨rfl, fun _ _ x => x⟩ (keeps_emit _ _ (by simp))) hv
    · exact hv
  have h3 : ∀ v : World, IndexInv v →
      IndexInv (if v.showingLoading then hideLoadingScreen v else v) := by
    intro v hv
    split_ifs
    · exact ⟨hv.1, hv.2⟩
    · exact hv
  unfold setup
  dsimp only
  apply h3
  apply h2
  split_ifs
  · exact inv_setupImages _ i (h1 _ h0)
  · have := h1 _ h0
    exact ⟨this.1, this.2⟩

/-- In every reachable state the interval index is within the table, and so
is every index `saveIntervalToSD` was called with. -/
theorem inv_reachable (w : World) (h : Reachable w) : IndexInv w := by
  induction h with
  | start sd entropy i => exact inv_setup _ i (inv_boot sd entropy)
  | tick w r w1 _ hl ih => exact inv_loop w w1 r ih hl
  | card w sd _ ih => exact ⟨ih.1, ih.2⟩

/-- Whatever the card holds and whatever its status, `loadIntervalFromSD`
leaves an index of the table. -/
theorem loadIntervalFromSD_range (w : World) :
    0 ≤ (loadIntervalFromSD w).currentIntervalIndex ∧
    (loadIntervalFromSD w).currentIntervalIndex ≤ 6 := by
  have hd : 0 ≤ (defaultInterval w).currentIntervalIndex ∧
      (defaultInterval w).currentIntervalIndex ≤ 6 := by
    rw [defaultInterval_eq]
    show (0 : Int) ≤ 2 ∧ (2 : Int) ≤ 6
    decide
  unfold loadIntervalFromSD
  split
  · show (0 : Int) ≤ INTERVAL_DEFAULT_INDEX ∧ INTERVAL_DEFAULT_INDEX ≤ 6
    decide
  · split
    · split
      · dsimp only
        split
        · rename_i hs
          exact (index_test _).mp hs
        · exact hd
      · exact hd
    · exact hd

/-- C9. In every reachable state `currentIntervalIndex` is in `0 .. 6`, and every
call of `saveIntervalToSD` so far was made with an index in `0 .. 6`. The bound
holds for the static initialiser, after `loadIntervalFromSD` for every card
content and status, and is preserved by `changeInterval` and by
`adjustInterval` in both directions. What `saveIntervalToSD` writes is the
decimal text of the index. -/
theorem interval_index_in_range (w : World) (h : Reachable w) :
    (0 ≤ w.currentIntervalIndex ∧ w.currentIntervalIndex ≤ 6) ∧
    (∀ (v : Int) (b : Bool), Effect.saveIntervalToSD v b ∈ w.log → 0 ≤ v ∧ v ≤ 6) ∧
    (∀ (sd : SDCard) (entropy : Nat → Nat),
      0 ≤ (boot sd entropy).currentIntervalIndex ∧ (boot sd entropy).currentIntervalIndex ≤ 6) ∧
    (∀ v : World, 0 ≤ (loadIntervalFromSD v).currentIntervalIndex ∧
      (loadIntervalFromSD v).currentIntervalIndex ≤ 6) ∧
    (∀ (v : World) (t1 t2 : Nat), 0 ≤ v.currentIntervalIndex ∧ v.currentIntervalIndex ≤ 6 →
      0 ≤ (changeInterval v t1 t2).currentIntervalIndex ∧
      (changeInterval v t1 t2).currentIntervalIndex ≤ 6) ∧
    (∀ (v : World) (d : Int), 0 ≤ v.currentIntervalIndex ∧ v.currentIntervalIndex ≤ 6 →
      0 ≤ (adjustInterval v d).currentIntervalIndex ∧
      (adjustInterval v d).currentIntervalIndex ≤ 6) ∧
    (saveIntervalToSD w).log
      = w.log ++ [.saveIntervalToSD w.currentIntervalIndex (w.sd.available && w.sd.writeOk)] ∧
    (w.sd.available = true → w.sd.writeOk = true →
      (saveIntervalToSD w).sd.intervalFile = some (printInt w.currentIntervalIndex)) := by
  have hi := inv_reachable w h
  refine ⟨hi.1, hi.2, fun sd e => (inv_boot sd e).1, loadIntervalFromSD_range, ?_, ?_, ?_, ?_⟩
  · intro v t1 t2 hv
    rw [changeInterval_index, advance_index _ hv]
    omega
  · intro v d hv
    rw [adjustInterval_index]
    split_ifs
    · rw [advance_index _ hv]; omega
    · rw [retreat_index _ hv]; omega
  · rw [saveIntervalToSD_eq]
    rfl
  · intro ha hw
    rw [saveIntervalToSD_eq]
    simp [emit, ha, hw]

/-- C9 on the state after `setup` with the sample card, which stores index 3. -/
theorem interval_index_in_range_witness :
    started.currentIntervalIndex = 3 ∧
    (0 ≤ started.currentIntervalIndex ∧ started.currentIntervalIndex ≤ 6) ∧
    (∀ (v : Int) (b : Bool), Effect.saveIntervalToSD v b ∈ started.log → 0 ≤ v ∧ v ≤ 6) :=
  ⟨by decide, (interval_index_in_range started (Reachable.start _ _ _)).1,
    (interval_index_in_range started (Reachable.start _ _ _)).2.1⟩

/-! ## Unparseable settings, upper-case extensions, late clock reads -/

/-- C11. The code on an interval file that holds "abc", and on an empty one:
`toInt` gives 0, which passes the range test, so the index becomes 0 and the
interval 5000 ms instead of the default index 2, no save is made and the file
keeps its content. The brightness loader, on the same text, does fall back to
its default and saves it. -/
theorem load_interval_unparseable :
    toInt "abc" = 0 ∧ toInt "" = 0 ∧
    (loadIntervalFromSD (boot cardUnparseable sampleEntropy)).currentIntervalIndex = 0 ∧
    (loadIntervalFromSD (boot cardUnparseable sampleEntropy)).slideshowInterval = 5000 ∧
    (loadIntervalFromSD (boot cardUnparseable sampleEntropy)).log = [] ∧
    (loadIntervalFromSD (boot cardUnparseable sampleEntropy)).sd.intervalFile = some "abc" ∧
    (loadIntervalFromSD (boot cardEmptyFile sampleEntropy)).currentIntervalIndex = 0 ∧
    (loadIntervalFromSD (boot cardEmptyFile sampleEntropy)).log = [] ∧
    (loadBrightnessFromSD (boot cardBrightnessUnparseable sampleEntropy)).currentBrightness
      = BRIGHTNESS_DEFAULT ∧
    (loadBrightnessFromSD (boot cardBrightnessUnparseable sampleEntropy)).log
      = [.ledcWrite 128, .saveBrightnessToSD 128 true] := by
  decide

/-- C19. The code on a card whose only image is `IMG_0001.JPG`: `findImageFiles`
lower-cases the extension and accepts the file, storing the path with its
original case; `displayImage` tests the stored path case-sensitively, so the
image is never decoded or drawn, at start-up or later. -/
theorem upper_case_image_not_drawn :
    extensionOf "IMG_0001.JPG" = ".jpg" ∧
    (findImageFiles (boot sampleCard sampleEntropy) singleUpperCase).imageFiles
      = ["/IMG_0001.JPG"] ∧
    endsWith "/IMG_0001.JPG" ".jpg" = false ∧ endsWith "/IMG_0001.JPG" ".jpeg" = false ∧
    (displayImage (findImageFiles (boot sampleCard sampleEntropy) singleUpperCase) 0 900).log
      = [.imageNotDrawn "/IMG_0001.JPG"] ∧
    (setup (boot sampleCard sampleEntropy) singleUpperCase).fatalError = false ∧
    (setup (boot sampleCard sampleEntropy) singleUpperCase).log
      = [.loadingScreen, .ledcWrite 128, .imageNotDrawn "/IMG_0001.JPG"] := by
  decide

/-- C18. The code on a press whose handler reads the clock one millisecond
after the tick's own sample (`now = 1100`, `now' = 1101`): the short press in
the slideshow is dispatched and opens the menu, then `now - menuLastInteraction`
wraps to `2^32 - 1`, the menu timeout fires in the same tick and the tick ends
in the slideshow. With equal reads the same press ends in the menu. A press in
the brightness screen with the late read ends in the slideshow as well. -/
theorem timeout_fires_after_event :
    lateRelease.now ≤ lateRelease.handler ∧
    started.currentState = STATE_SLIDESHOW ∧
    usub lateRelease.now lateRelease.handler = 4294967295 ∧
    shortPresses (runTicks started [readsAt LOW 1000, lateRelease]).log
      = shortPresses started.log + 1 ∧
    (runTicks started [readsAt LOW 1000, lateRelease]).log
      = started.log ++ [.handleShortPress, .showMainMenu 4 0, .drawImage "/b.jpg"] ∧
    (runTicks started [readsAt LOW 1000, lateRelease]).currentState = STATE_SLIDESHOW ∧
    (runTicks started [readsAt LOW 1000, readsAt HIGH 1100]).currentState = STATE_MENU ∧
    (runTicks started toBrightnessScreen).currentState = STATE_SETTING_BRIGHTNESS ∧
    shortPresses (runTicks started
      (toBrightnessScreen ++ [readsAt LOW 4000, lateReleaseInScreen])).log
      = shortPresses (runTicks started toBrightnessScreen).log + 1 ∧
    (runTicks started (toBrightnessScreen ++ [readsAt LOW 4000, lateReleaseInScreen])).currentState
      = STATE_SLIDESHOW := by
  decide

/-! ## Save and load round trip -/

/-- Reading back what `print` wrote: brightness values. -/
theorem toInt_printNat (b : Nat) (h : b ≤ 255) : toInt (printNat b) = (b : Int) := by
  interval_cases b <;> rfl

/-- Reading back what `print` wrote: interval indices. -/
theorem toInt_printInt (i : Int) (h : 0 ≤ i ∧ i ≤ 6) : toInt (printInt i) = i := by
  obtain ⟨h0, h6⟩ := h
  interval_cases i <;> rfl

/-- The card after `saveIntervalToSD` and `saveBrightnessToSD` on an available,
writable card. -/
theorem saved_card (w : World) (ha : w.sd.available = true) (hw : w.sd.writeOk = true) :
    (saveBrightnessToSD (saveIntervalToSD w)).sd =
      { w.sd with intervalFile := some (printInt w.currentIntervalIndex),
                  brightnessFile := some (printNat w.currentBrightness) } := by
  rw [saveBrightnessToSD_eq, saveIntervalToSD_eq]
  simp [emit, ha, hw]

/-- Loading an interval file that holds the text of an index of the table. -/
theorem loadIntervalFromSD_valid (v : World) (text : String) (ha : v.sd.available = true)
    (hf : v.sd.intervalFile = some text) (hr : v.sd.readOk = true)
    (hv : 0 ≤ toInt text ∧ toInt text ≤ 6) :
    loadIntervalFromSD v =
      { v with currentIntervalIndex := toInt text, slideshowInterval := intervalAt (toInt text) } := by
  have ht : (toInt text ≥ 0 && toU32 (toInt text) < intervalCount) = true :=
    (index_test text).mpr hv
  unfold loadIntervalFromSD
  simp only [ha, hf, hr, Bool.not_true, Bool.false_eq_true, if_false, if_true]
  rw [if_pos ht]

/-- Loading a brightness file that holds the text of a brightness within bounds. -/
theorem loadBrightnessFromSD_valid (v : World) (text : String) (ha : v.sd.available = true)
    (hf : v.sd.brightnessFile = some text) (hr : v.sd.readOk = true)
    (hv : 20 ≤ toInt text ∧ toInt text ≤ 255) :
    loadBrightnessFromSD v =
      { v with currentBrightness := (toInt text).toNat,
               log := v.log ++ [.ledcWrite (toInt text).toNat] } := by
  have ht : (toInt text ≥ MIN_BRIGHTNESS && toInt text ≤ MAX_BRIGHTNESS) = true := by
    simp only [MIN_BRIGHTNESS, MAX_BRIGHTNESS, Bool.and_eq_true, decide_eq_true_eq]
    omega
  have h8 : toU8 (toInt text) = (toInt text).toNat := by
    unfold toU8
    omega
  unfold loadBrightnessFromSD
  simp only [ha, hf, hr, Bool.not_true, Bool.false_eq_true, if_false, if_true]
  rw [if_pos ht, h8, set_brightness_eq _ _ (by omega)]
  rfl

/-- C12. Save/load round trip. Let `w` hold an interval index `i` in `0 .. 6`
and a brightness `b` in `20 .. 255`, on a card that is available, readable and
writable, and let `v` be any state whose card is the one `saveIntervalToSD` and
`saveBrightnessToSD` leave (for instance the state after a restart). Then
`loadIntervalFromSD` restores `i` and `slideshowInterval = intervals[i]`,
`loadBrightnessFromSD` restores `b` and applies it to the backlight, and
neither load saves anything or changes the card. -/
theorem save_load_round_trip (w v : World)
    (hi : 0 ≤ w.currentIntervalIndex ∧ w.currentIntervalIndex ≤ 6)
    (hb : 20 ≤ w.currentBrightness ∧ w.currentBrightness ≤ 255)
    (hs : w.sd.available = true ∧ w.sd.readOk = true ∧ w.sd.writeOk = true)
    (hv : v.sd = (saveBrightnessToSD (saveIntervalToSD w)).sd) :
    (loadIntervalFromSD v).currentIntervalIndex = w.currentIntervalIndex ∧
    (loadIntervalFromSD v).slideshowInterval = intervalAt w.currentIntervalIndex ∧
    intervals.get? w.currentIntervalIndex.toNat = some (loadIntervalFromSD v).slideshowInterval ∧
    (loadIntervalFromSD v).log = v.log ∧
    (loadIntervalFromSD v).sd = v.sd ∧
    (loadBrightnessFromSD v).currentBrightness = w.currentBrightness ∧
    (loadBrightnessFromSD v).log = v.log ++ [.ledcWrite w.currentBrightness] ∧
    (loadBrightnessFromSD v).sd = v.sd ∧
    (loadBrightnessFromSD (loadIntervalFromSD v)).currentIntervalIndex = w.currentIntervalIndex ∧
    (loadBrightnessFromSD (loadIntervalFromSD v)).currentBrightness = w.currentBrightness ∧
    (loadBrightnessFromSD (loadIntervalFromSD v)).log = v.log ++ [.ledcWrite w.currentBrightness] ∧
    (loadBrightnessFromSD (loadIntervalFromSD v)).sd = v.sd := by
  obtain ⟨ha, hr, hw⟩ := hs
  rw [saved_card w ha hw] at hv
  have va : v.sd.available = true := by rw [hv]; exact ha
  have vr : v.sd.readOk = true := by rw [hv]; exact hr
  have vi : v.sd.intervalFile = some (printInt w.currentIntervalIndex) := by rw [hv]
  have vb : v.sd.brightnessFile = some (printNat w.currentBrightness) := by rw [hv]
  have ti := toInt_printInt _ hi
  have tb := toInt_printNat w.currentBrightness hb.2
  have e1 := loadIntervalFromSD_valid v _ va vi vr (by rw [ti]; exact hi)
  have e2 := loadBrightnessFromSD_valid v _ va vb vr (by rw [tb]; omega)
  have e3 := loadBrightnessFromSD_valid (loadIntervalFromSD v) (printNat w.currentBrightness)
    (by rw [e1]; exact va) (by rw [e1]; exact vb) (by rw [e1]; exact vr) (by rw [tb]; omega)
  rw [ti] at e1
  rw [tb] at e2 e3
  simp only [Int.toNat_ofNat] at e2 e3
  have hget : intervals.get? w.currentIntervalIndex.toNat
      = some (intervalAt w.currentIntervalIndex) := by
    obtain ⟨h0, h6⟩ := hi
    generalize w.currentIntervalIndex = i at h0 h6
    interval_cases i <;> rfl
  refine ⟨?_, ?_, ?_, ?_, ?_, ?_, ?_, ?_, ?_, ?_, ?_, ?_⟩
  · rw [e1]
  · rw [e1]
  · rw [e1]; exact hget
  · rw [e1]
  · rw [e1]
  · rw [e2]
  · rw [e2]
  · rw [e2]
  · rw [e3, e1]
  · rw [e3]
  · rw [e3, e1]
  · rw [e3, e1]

/-- C12 on the state after start-up (index 3, brightness 128), read back by a
freshly booted device on the same card. -/
theorem save_load_round_trip_witness :
    (loadIntervalFromSD (boot (saveBrightnessToSD (saveIntervalToSD started)).sd
      sampleEntropy)).currentIntervalIndex = 3 ∧
    (loadIntervalFromSD (boot (saveBrightnessToSD (saveIntervalToSD started)).sd
      sampleEntropy)).slideshowInterval = 300000 ∧
    (loadIntervalFromSD (boot (saveBrightnessToSD (saveIntervalToSD started)).sd
      sampleEntropy)).log = [] ∧
    (loadBrightnessFromSD (boot (saveBrightnessToSD (saveIntervalToSD started)).sd
      sampleEntropy)).currentBrightness = 128 ∧
    (loadBrightnessFromSD (boot (saveBrightnessToSD (saveIntervalToSD started)).sd
      sampleEntropy)).log = [.ledcWrite 128] :=
  ⟨(save_load_round_trip started (boot (saveBrightnessToSD (saveIntervalToSD started)).sd
      sampleEntropy) (by decide) (by decide) (by decide) rfl).1,
    (save_load_round_trip started (boot (saveBrightnessToSD (saveIntervalToSD started)).sd
      sampleEntropy) (by decide) (by decide) (by decide) rfl).2.1,
    (save_load_round_trip started (boot (saveBrightnessToSD (saveIntervalToSD started)).sd
      sampleEntropy) (by decide) (by decide) (by decide) rfl).2.2.2.1,
    (save_load_round_trip started (boot (saveBrightnessToSD (saveIntervalToSD started)).sd
      sampleEntropy) (by decide) (by decide) (by decide) rfl).2.2.2.2.2.1,
    (save_load_round_trip started (boot (saveBrightnessToSD (saveIntervalToSD started)).sd
      sampleEntropy) (by decide) (by decide) (by decide) rfl).2.2.2.2.2.2.1⟩

/-! ## Button and notice handling leave the sequencer alone -/

theorem seq_refl (w : World) : KeepsSequencer w w := ⟨rfl, rfl, rfl, rfl, rfl, rfl, rfl⟩

theorem seq_trans {a b c : World} (h1 : KeepsSequencer a b) (h2 : KeepsSequencer b c) :
    KeepsSequencer a c :=
  ⟨h2.images.trans h1.images, h2.order.trans h1.order, h2.cursor.trans h1.cursor,
    h2.draws.trans h1.draws, h2.source.trans h1.source, h2.loading.trans h1.loading,
    h2.fatal.trans h1.fatal⟩

theorem seq_emit (w : World) (e : Effect) : KeepsSequencer w (emit w e) :=
  ⟨rfl, rfl, rfl, rfl, rfl, rfl, rfl⟩

theorem seq_displayImage (w : World) (i : Int) (t : Nat) :
    KeepsSequencer w (displayImage w i t) := by
  unfold displayImage
  split_ifs
  · exact seq_refl w
  · exact ⟨rfl, rfl, rfl, rfl, rfl, rfl, rfl⟩

theorem seq_exitToSlideshow (w : World) (t : Nat) : KeepsSequencer w (exitToSlideshow w t) := by
  unfold exitToSlideshow
  dsimp only
  split_ifs
  · exact seq_trans (b := { w with currentState := STATE_SLIDESHOW })
      ⟨rfl, rfl, rfl, rfl, rfl, rfl, rfl⟩ (seq_displayImage _ _ _)
  · exact ⟨rfl, rfl, rfl, rfl, rfl, rfl, rfl⟩

theorem seq_showMessage (w : World) (m : String) (t : Nat) :
    KeepsSequencer w (showMessage w m t) := by
  unfold showMessage
  split_ifs
  · exact seq_refl w
  · exact ⟨rfl, rfl, rfl, rfl, rfl, rfl, rfl⟩

theorem seq_hideMessage (w : World) (t : Nat) : KeepsSequencer w (hideMessage w t) := by
  unfold hideMessage
  dsimp only
  split_ifs
  · exact seq_trans (seq_displayImage _ _ _) ⟨rfl, rfl, rfl, rfl, rfl, rfl, rfl⟩
  · exact ⟨rfl, rfl, rfl, rfl, rfl, rfl, rfl⟩
  · exact seq_refl w

theorem seq_saveIntervalToSD (w : World) : KeepsSequencer w (saveIntervalToSD w) := by
  rw [saveIntervalToSD_eq]
  exact ⟨rfl, rfl, rfl, rfl, rfl, rfl, rfl⟩

theorem seq_saveBrightnessToSD (w : World) : KeepsSequencer w (saveBrightnessToSD w) := by
  rw [saveBrightnessToSD_eq]
  exact ⟨rfl, rfl, rfl, rfl, rfl, rfl, rfl⟩

theorem seq_changeInterval (w : World) (t1 t2 : Nat) :
    KeepsSequencer w (changeInterval w t1 t2) := by
  unfold changeInterval
  dsimp only
  refine seq_trans (seq_trans (seq_trans ?_ (seq_saveIntervalToSD _)) (seq_showMessage _ _ _))
    ⟨rfl, rfl, rfl, rfl, rfl, rfl, rfl⟩
  exact ⟨rfl, rfl, rfl, rfl, rfl, rfl, rfl⟩

theorem seq_adjustInterval (w : World) (d : Int) : KeepsSequencer w (adjustInterval w d) := by
  unfold adjustInterval
  dsimp only
  refine seq_trans (seq_trans ?_ (seq_saveIntervalToSD _)) (seq_emit _ _)
  split_ifs <;> exact ⟨rfl, rfl, rfl, rfl, rfl, rfl, rfl⟩

theorem seq_adjustBrightness (w : World) (d : Int) : KeepsSequencer w (adjustBrightness w d) := by
  unfold adjustBrightness
  dsimp only
  split_ifs
  · refine seq_trans (seq_trans (seq_trans ?_ (seq_emit _ _)) (seq_saveBrightnessToSD _))
      (seq_emit _ _)
    exact ⟨rfl, rfl, rfl, rfl, rfl, rfl, rfl⟩
  · exact seq_refl w

theorem seq_handleShortPress (w : World) (r : Reads) :
    KeepsSequencer w (handleShortPress w r) := by
  have h0 : KeepsSequencer w (enterHandler w .handleShortPress r.handler) :=
    ⟨rfl, rfl, rfl, rfl, rfl, rfl, rfl⟩
  refine seq_trans h0 ?_
  unfold handleShortPress
  dsimp only
  split
  · exact ⟨rfl, rfl, rfl, rfl, rfl, rfl, rfl⟩
  · split_ifs
    · exact ⟨rfl, rfl, rfl, rfl, rfl, rfl, rfl⟩
    · exact ⟨rfl, rfl, rfl, rfl, rfl, rfl, rfl⟩
    · exact ⟨rfl, rfl, rfl, rfl, rfl, rfl, rfl⟩
    · exact seq_exitToSlideshow _ _
    · exact seq_refl _
  · exact seq_adjustInterval _ _
  · exact seq_adjustBrightness _ _
  · exact ⟨rfl, rfl, rfl, rfl, rfl, rfl, rfl⟩

theorem seq_handleLongPress (w : World) (r : Reads) :
    KeepsSequencer w (handleLongPress w r) := by
  have h0 : KeepsSequencer w (enterHandler w .handleLongPress r.handler) :=
    ⟨rfl, rfl, rfl, rfl, rfl, rfl, rfl⟩
  refine seq_trans h0 ?_
  unfold handleLongPress
  dsimp only
  split
  · exact seq_changeInterval _ _ _
  · exact ⟨rfl, rfl, rfl, rfl, rfl, rfl, rfl⟩
  · exact seq_adjustInterval _ _
  · exact seq_adjustBrightness _ _
  · exact seq_exitToSlideshow _ _

theorem seq_processButtonInput (w : World) (r : Reads) :
    KeepsSequencer w (processButtonInput w r) := by
  have h1 : KeepsSequencer w (detectPress w r) := by
    unfold detectPress
    split_ifs
    · exact ⟨rfl, rfl, rfl, rfl, rfl, rfl, rfl⟩
    · exact seq_refl w
  have hd : ∀ v : World, KeepsSequencer v (dispatchRelease v r) := by
    intro v
    unfold dispatchRelease
    dsimp only
    split_ifs
    · exact seq_handleShortPress v r
    · exact seq_refl v
    · exact seq_refl v
  have h2 : ∀ v : World, KeepsSequencer v (detectRelease v r) := by
    intro v
    unfold detectRelease
    split_ifs
    · have := hd { v with buttonReleaseTime := r.now }
      exact ⟨this.images, this.order, this.cursor, this.draws, this.source, this.loading,
        this.fatal⟩
    · exact seq_refl v
  have h3 : ∀ v : World, KeepsSequencer v (detectLongPress v r) := by
    intro v
    unfold detectLongPress
    split_ifs
    · have := seq_handleLongPress { v with longPressTriggered := true } r
      exact ⟨this.images, this.order, this.cursor, this.draws, this.source, this.loading,
        this.fatal⟩
    · exact seq_refl v
  have h4 : KeepsSequencer w (classifyButton w r) := by
    have := seq_trans (seq_trans h1 (h2 _)) (h3 _)
    exact ⟨this.images, this.order, this.cursor, this.draws, this.source, this.loading,
      this.fatal⟩
  have h5 : ∀ v : World, KeepsSequencer v (settingTimeout v r) := by
    intro v
    unfold settingTimeout
    split_ifs
    · exact ⟨rfl, rfl, rfl, rfl, rfl, rfl, rfl⟩
    · exact seq_refl v
    · exact seq_refl v
  have h6 : ∀ v : World, KeepsSequencer v (menuTimeout v r) := by
    intro v
    unfold menuTimeout
    split_ifs
    · exact seq_exitToSlideshow _ _
    · exact seq_refl v
    · exact seq_refl v
  exact seq_trans (seq_trans h4 (h5 _)) (h6 _)

theorem seq_expireNotice (w : World) (r : Reads) : KeepsSequencer w (expireNotice w r) := by
  unfold expireNotice
  split_ifs
  · exact seq_hideMessage _ _
  · exact seq_refl w

/-! ## Notices -/

theorem seq_getNextRandomImage (w w1 : World) (i : Int)
    (h : getNextRandomImage w = some (i, w1)) :
    w1.imageFiles = w.imageFiles ∧ w1.showingLoading = w.showingLoading ∧
    w1.fatalError = w.fatalError := by
  unfold getNextRandomImage at h
  split_ifs at h
  · cases h; exact ⟨rfl, rfl, rfl⟩
  · split at h
    · cases h
    · dsimp only at h
      split_ifs at h <;> cases h <;> exact ⟨rfl, rfl, rfl⟩

theorem setup_loading (w : World) (i : SetupInputs) : (setup w i).showingLoading = false := by
  unfold setup
  dsimp only
  split_ifs with h1 h2 h3
  · rfl
  · simpa using h2
  · rfl
  · simpa using h3

theorem loop_loading (w w1 : World) (r : Reads) (h : loop w r = some w1) :
    w1.showingLoading = w.showingLoading := by
  have h2 := seq_trans (seq_processButtonInput w r) (seq_expireNotice _ r)
  unfold loop advanceSlideshow at h
  split_ifs at h
  · split at h
    · cases h
    · rename_i i w3 hg
      cases h
      rw [(seq_displayImage _ _ _).loading, (seq_getNextRandomImage _ _ _ hg).2.1, h2.loading]
  · cases h; exact h2.loading
  · cases h; exact h2.loading

/-- The loading screen is gone in every reachable state. -/
theorem reachable_loading (w : World) (h : Reachable w) : w.showingLoading = false := by
  induction h with
  | start sd entropy i => exact setup_loading _ i
  | tick w r w1 _ hl ih => rw [loop_loading w w1 r hl, ih]
  | card w sd _ ih => exact ih

/-- What a long press does in the slideshow, notice or no notice. -/
theorem handleLongPress_viewing (w : World) (r : Reads) (hm : w.currentState = STATE_SLIDESHOW)
    (hl : w.showingLoading = false) :
    (handleLongPress w r).showingMessage = true ∧
    (handleLongPress w r).currentMessage = "Interval: " ++ intervalText (intervalAt
      (toI32 (toU32 (w.currentIntervalIndex + 1) % intervalCount))) ∧
    (handleLongPress w r).messageStartTime = r.notice ∧
    (handleLongPress w r).currentState = STATE_SLIDESHOW := by
  have h5 : (enterHandler w .handleLongPress r.handler).currentState = STATE_SLIDESHOW := hm
  have he : handleLongPress w r
      = changeInterval (enterHandler w .handleLongPress r.handler) r.notice r.image := by
    simp only [handleLongPress, h5]
  rw [he]
  unfold changeInterval
  simp only [saveIntervalToSD_eq]
  simp [showMessage, emit, enterHandler, hm, hl]

/-- C15, as the code has it. In every reachable state in the slideshow, whether a
notice is active or not, a long press starts a new notice: after
`handleLongPress` a notice is showing, its text is "Interval: " followed by the
newly selected interval, and its start time is the clock read of `showMessage`. -/
theorem long_press_restarts_notice (w : World) (r : Reads) (h : Reachable w)
    (hm : w.currentState = STATE_SLIDESHOW) :
    (handleLongPress w r).showingMessage = true ∧
    (handleLongPress w r).currentMessage
      = "Interval: " ++ intervalText (intervalAt ((w.currentIntervalIndex + 1) % 7)) ∧
    (handleLongPress w r).messageStartTime = r.notice ∧
    (handleLongPress w r).currentState = STATE_SLIDESHOW := by
  have hv := handleLongPress_viewing w r hm (reachable_loading w h)
  rw [advance_index _ (inv_reachable w h).1] at hv
  exact hv

/-- C15 right after start-up (index 3): the long press shows "Interval: 15 min". -/
theorem long_press_restarts_notice_witness :
    started.currentState = STATE_SLIDESHOW ∧
    (handleLongPress started (readsAt LOW 1600)).showingMessage = true ∧
    (handleLongPress started (readsAt LOW 1600)).currentMessage = "Interval: 15 min" ∧
    (handleLongPress started (readsAt LOW 1600)).messageStartTime = 1600 :=
  ⟨by decide,
    (long_press_restarts_notice started (readsAt LOW 1600) (Reachable.start _ _ _) (by decide)).1,
    (long_press_restarts_notice started (readsAt LOW 1600) (Reachable.start _ _ _) (by decide)).2.1,
    (long_press_restarts_notice started (readsAt LOW 1600) (Reachable.start _ _ _)
      (by decide)).2.2.1⟩

/-- C15 fails as stated: with the notice "Interval: 15 min" active since 1600, a
long press handled at 2400, 800 ms into the notice, replaces the text by
"Interval: 30 min" and restarts the notice at 2400. -/
theorem notice_replaced_while_active :
    ∃ w, Reachable w ∧ w.currentState = STATE_SLIDESHOW ∧ w.showingMessage = true ∧
      w.currentMessage = "Interval: 15 min" ∧ w.messageStartTime = 1600 ∧
      usub 2400 w.messageStartTime < MESSAGE_DURATION ∧
      (handleLongPress w (readsAt LOW 2400)).currentMessage = "Interval: 30 min" ∧
      (handleLongPress w (readsAt LOW 2400)).messageStartTime = 2400 :=
  ⟨runTicks started firstNotice,
    reachable_runLoop firstNotice started _ (Reachable.start _ _ _) rfl,
    by decide, by decide, by decide, by decide, by decide, by decide, by decide⟩

/-! ## Timeouts on idle ticks -/

/-- A tick that dispatches no handler changes nothing but the button variables
in the classifier: mode, menu selection, interaction time, settings and log
stay as they were. -/
theorem classify_idle (w : World) (r : Reads)
    (h : handlerCalls (classifyButton w r).log = handlerCalls w.log) :
    (classifyButton w r).currentState = w.currentState ∧
    (classifyButton w r).selectedMenuItem = w.selectedMenuItem ∧
    (classifyButton w r).menuLastInteraction = w.menuLastInteraction ∧
    (classifyButton w r).currentIntervalIndex = w.currentIntervalIndex ∧
    (classifyButton w r).currentBrightness = w.currentBrightness ∧
    (classifyButton w r).log = w.log := by
  unfold handlerCalls at h
  rcases Bool.eq_false_or_eq_true w.buttonPressed with hp | hp <;>
  rcases Bool.eq_false_or_eq_true w.longPressTriggered with ht | ht <;>
  rcases Bool.eq_false_or_eq_true r.level with hl | hl <;>
  rcases Bool.eq_false_or_eq_true w.lastButtonState with hlast | hlast <;>
  (simp [classifyButton, detectPress, detectRelease, dispatchRelease, detectLongPress, hp, ht,
      hl, hlast] at h ⊢
   try (split_ifs at h ⊢ <;> simp_all))

theorem exitToSlideshow_settings (w : World) (t : Nat) :
    (exitToSlideshow w t).currentIntervalIndex = w.currentIntervalIndex ∧
    (exitToSlideshow w t).currentBrightness = w.currentBrightness := by
  unfold exitToSlideshow displayImage
  dsimp only
  split_ifs <;> simp [drawJpeg, emit]

/-- The state after the classifier of a tick that dispatches no handler, seen
from `processButtonInput`. -/
theorem idle_tick (w : World) (r : Reads)
    (h : handlerCalls (processButtonInput w r).log = handlerCalls w.log) :
    (classifyButton w r).currentState = w.currentState ∧
    (classifyButton w r).selectedMenuItem = w.selectedMenuItem ∧
    (classifyButton w r).menuLastInteraction = w.menuLastInteraction ∧
    (classifyButton w r).currentIntervalIndex = w.currentIntervalIndex ∧
    (classifyButton w r).currentBrightness = w.currentBrightness ∧
    (classifyButton w r).log = w.log := by
  have q := quiet_timeouts w r
  apply classify_idle
  unfold handlerCalls at h ⊢
  rw [q.short, q.long] at h
  exact h

/-- C13, as the code has it. In the menu, on a tick of `processButtonInput` that
dispatches no handler: when more than `MENU_TIMEOUT` (10000 ms) has passed since
the last interaction the tick ends in the slideshow, and when at most
`MENU_TIMEOUT` has passed it ends in the menu; the selected item is unchanged
either way. -/
theorem menu_idle_tick (w : World) (r : Reads) (hm : w.currentState = STATE_MENU)
    (hidle : handlerCalls (processButtonInput w r).log = handlerCalls w.log) :
    (MENU_TIMEOUT < usub r.now w.menuLastInteraction →
      (processButtonInput w r).currentState = STATE_SLIDESHOW ∧
      (processButtonInput w r).selectedMenuItem = w.selectedMenuItem) ∧
    (usub r.now w.menuLastInteraction ≤ MENU_TIMEOUT →
      (processButtonInput w r).currentState = STATE_MENU ∧
      (processButtonInput w r).selectedMenuItem = w.selectedMenuItem) := by
  obtain ⟨c1, c2, c3, _, _, _⟩ := idle_tick w r hidle
  have hs : settingTimeout (classifyButton w r) r = classifyButton w r := by
    unfold settingTimeout
    simp [c1, hm]
  unfold processButtonInput
  rw [hs]
  unfold menuTimeout
  rw [c1, c3, if_pos hm]
  constructor
  · intro h
    rw [if_pos h]
    have e := exitToSlideshow_mode (classifyButton w r) r.timeoutImage
    exact ⟨e.1, e.2.trans c2⟩
  · intro h
    rw [if_neg (by omega)]
    exact ⟨c1.trans hm, c2⟩

/-- C13 in the menu opened at 1100: an idle tick at 21100 ends in the slideshow. -/
theorem menu_idle_tick_witness :
    (runTicks started [readsAt LOW 1000, readsAt HIGH 1100]).currentState = STATE_MENU ∧
    (processButtonInput (runTicks started [readsAt LOW 1000, readsAt HIGH 1100])
      (readsAt HIGH 21100)).currentState = STATE_SLIDESHOW ∧
    (processButtonInput (runTicks started [readsAt LOW 1000, readsAt HIGH 1100])
      (readsAt HIGH 21100)).selectedMenuItem = 0 :=
  ⟨by decide,
    ((menu_idle_tick (runTicks started [readsAt LOW 1000, readsAt HIGH 1100]) (readsAt HIGH 21100)
      (by decide) (by decide)).1 (by decide)).1,
    ((menu_idle_tick (runTicks started [readsAt LOW 1000, readsAt HIGH 1100]) (readsAt HIGH 21100)
      (by decide) (by decide)).1 (by decide)).2⟩

/-- C13 fails as stated: in the menu opened at 1100, an idle tick at 11100, when
exactly `MENU_TIMEOUT` has passed, dispatches no handler and ends in the menu;
the tick one millisecond later ends in the slideshow. -/
theorem menu_stays_at_timeout :
    ∃ w, Reachable w ∧ w.currentState = STATE_MENU ∧ w.menuLastInteraction = 1100 ∧
      usub 11100 w.menuLastInteraction = MENU_TIMEOUT ∧
      handlerCalls (processButtonInput w (readsAt HIGH 11100)).log = handlerCalls w.log ∧
      (processButtonInput w (readsAt HIGH 11100)).currentState = STATE_MENU ∧
      (processButtonInput w (readsAt HIGH 11101)).currentState = STATE_SLIDESHOW :=
  ⟨runTicks started [readsAt LOW 1000, readsAt HIGH 1100],
    reachable_runLoop [readsAt LOW 1000, readsAt HIGH 1100] started _ (Reachable.start _ _ _) rfl,
    by decide, by decide, by decide, by decide, by decide, by decide⟩

/-- C14, as the code has it. In the interval or the brightness screen, on a tick
of `processButtonInput` that dispatches no handler and at which more than
`SETTING_TIMEOUT` (5000 ms) has passed since the last interaction: the tick
ends in the menu when at most `MENU_TIMEOUT` (10000 ms) has passed, and in the
slideshow when more has passed, the menu timeout firing in the same tick. The
selected menu item, the interval index and the brightness are unchanged. -/
theorem setting_idle_tick (w : World) (r : Reads)
    (hm : w.currentState = STATE_SETTING_INTERVAL ∨ w.currentState = STATE_SETTING_BRIGHTNESS)
    (hidle : handlerCalls (processButtonInput w r).log = handlerCalls w.log)
    (h5 : SETTING_TIMEOUT < usub r.now w.menuLastInteraction) :
    (usub r.now w.menuLastInteraction ≤ MENU_TIMEOUT →
      (processButtonInput w r).currentState = STATE_MENU) ∧
    (MENU_TIMEOUT < usub r.now w.menuLastInteraction →
      (processButtonInput w r).currentState = STATE_SLIDESHOW) ∧
    (processButtonInput w r).selectedMenuItem = w.selectedMenuItem ∧
    (processButtonInput w r).currentIntervalIndex = w.currentIntervalIndex ∧
    (processButtonInput w r).currentBrightness = w.currentBrightness := by
  obtain ⟨c1, c2, c3, c4, c5, _⟩ := idle_tick w r hidle
  have hs : settingTimeout (classifyButton w r) r
      = showMainMenu { classifyButton w r with currentState := STATE_MENU } := by
    have hc : ((classifyButton w r).currentState = STATE_SETTING_INTERVAL ||
        (classifyButton w r).currentState = STATE_SETTING_BRIGHTNESS) = true := by
      rw [c1]
      rcases hm with h | h <;> simp [h]
    have ht : SETTING_TIMEOUT < usub r.now (classifyButton w r).menuLastInteraction := by
      rw [c3]
      exact h5
    unfold settingTimeout
    rw [if_pos hc, if_pos ht]
  unfold processButtonInput
  rw [hs]
  unfold menuTimeout
  have e1 : (showMainMenu { classifyButton w r with currentState := STATE_MENU }).currentState
      = STATE_MENU := rfl
  have e2 : (showMainMenu { classifyButton w r with currentState := STATE_MENU }).menuLastInteraction
      = w.menuLastInteraction := c3
  rw [if_pos e1, e2]
  by_cases h : MENU_TIMEOUT < usub r.now w.menuLastInteraction
  · rw [if_pos h]
    have m := exitToSlideshow_mode
      (showMainMenu { classifyButton w r with currentState := STATE_MENU }) r.timeoutImage
    have s := exitToSlideshow_settings
      (showMainMenu { classifyButton w r with currentState := STATE_MENU }) r.timeoutImage
    exact ⟨fun h2 => absurd h (by omega), fun _ => m.1, m.2.trans c2, s.1.trans c4, s.2.trans c5⟩
  · rw [if_neg h]
    exact ⟨fun _ => rfl, fun h2 => absurd h2 h, c2, c4, c5⟩

/-- C14 in the interval screen entered at 2100: an idle tick at 8100 ends in the
menu, with item 0, index 3 and brightness 128 as before. -/
theorem setting_idle_tick_witness :
    (runTicks started toIntervalScreen).currentState = STATE_SETTING_INTERVAL ∧
    (processButtonInput (runTicks started toIntervalScreen) (readsAt HIGH 8100)).currentState
      = STATE_MENU ∧
    (processButtonInput (runTicks started toIntervalScreen) (readsAt HIGH 8100)).selectedMenuItem
      = (runTicks started toIntervalScreen).selectedMenuItem ∧
    (processButtonInput (runTicks started toIntervalScreen) (readsAt HIGH 8100)).currentIntervalIndex
      = (runTicks started toIntervalScreen).currentIntervalIndex ∧
    (processButtonInput (runTicks started toIntervalScreen) (readsAt HIGH 8100)).currentBrightness
      = (runTicks started toIntervalScreen).currentBrightness :=
  ⟨by decide,
    (setting_idle_tick (runTicks started toIntervalScreen) (readsAt HIGH 8100)
      (Or.inl (by decide)) (by decide) (by decide)).1 (by decide),
    (setting_idle_tick (runTicks started toIntervalScreen) (readsAt HIGH 8100)
      (Or.inl (by decide)) (by decide) (by decide)).2.2.1,
    (setting_idle_tick (runTicks started toIntervalScreen) (readsAt HIGH 8100)
      (Or.inl (by decide)) (by decide) (by decide)).2.2.2.1,
    (setting_idle_tick (runTicks started toIntervalScreen) (readsAt HIGH 8100)
      (Or.inl (by decide)) (by decide) (by decide)).2.2.2.2⟩

/-- C14 fails as stated: in the interval screen entered at 2100, an idle tick at
12101, with 10001 ms passed, dispatches no handler and ends in the slideshow,
not in the menu. -/
theorem setting_timeout_falls_through :
    ∃ w, Reachable w ∧ w.currentState = STATE_SETTING_INTERVAL ∧ w.menuLastInteraction = 2100 ∧
      SETTING_TIMEOUT < usub 12101 w.menuLastInteraction ∧
      handlerCalls (processButtonInput w (readsAt HIGH 12101)).log = handlerCalls w.log ∧
      (processButtonInput w (readsAt HIGH 12101)).currentState = STATE_SLIDESHOW :=
  ⟨runTicks started toIntervalScreen,
    reachable_runLoop toIntervalScreen started _ (Reachable.start _ _ _) rfl,
    by decide, by decide, by decide, by decide, by decide⟩

/-! ## Automatic image change -/

/-- The block "Handle slideshow" when an image change is due. -/
theorem advanceSlideshow_due (v : World) (r : Reads)
    (h : v.fatalError = false ∧ v.currentState = STATE_SLIDESHOW ∧ v.imageFiles ≠ [] ∧
      v.showingMessage = false ∧ v.slideshowInterval ≤ usub r.slideCheck v.lastImageChange) :
    advanceSlideshow v r
      = (getNextRandomImage v).map fun p => displayImage p.2 p.1 r.slideImage := by
  obtain ⟨h1, h2, h3, h4, h5⟩ := h
  have he : v.imageFiles.isEmpty = false := by
    cases hv : v.imageFiles with
    | nil => exact absurd hv h3
    | cons a l => rfl
  unfold advanceSlideshow
  rw [if_pos (by simp [h1, h2, he, h4]), if_pos h5]
  cases getNextRandomImage v with
  | none => rfl
  | some p => rfl

/-- The block "Handle slideshow" when no image change is due. -/
theorem advanceSlideshow_idle (v : World) (r : Reads)
    (h : ¬ (v.fatalError = false ∧ v.currentState = STATE_SLIDESHOW ∧ v.imageFiles ≠ [] ∧
      v.showingMessage = false ∧ v.slideshowInterval ≤ usub r.slideCheck v.lastImageChange)) :
    advanceSlideshow v r = some v := by
  unfold advanceSlideshow
  by_cases hc : (!v.fatalError && decide (v.currentState = STATE_SLIDESHOW) &&
      !v.imageFiles.isEmpty && !v.showingMessage) = true
  · rw [if_pos hc]
    simp only [Bool.and_eq_true, Bool.not_eq_true', decide_eq_true_eq] at hc
    obtain ⟨⟨⟨c1, c2⟩, c3⟩, c4⟩ := hc
    have c3' : v.imageFiles ≠ [] := by
      intro hn
      rw [hn] at c3
      cases c3
    rw [if_neg (fun h5 => h ⟨c1, c2, c3', c4, h5⟩)]
  · rw [if_neg hc]

/-- C16. In a pass of `loop`, the button and notice handling leave the image
list and the sequencer (order, cursor, generator) as they were. After them,
`getNextRandomImage` is called, and the image it returns displayed, exactly
when there is no fatal error, the mode is the slideshow, the image list is not
empty, no notice is showing and at least `slideshowInterval` ms have passed
since `lastImageChange`; otherwise the pass ends in the state after the button
and notice handling. In particular the sequencer is not advanced while a notice
is showing, outside the slideshow, or without images. -/
theorem auto_advance (w : World) (r : Reads) :
    ((afterInput w r).imageFiles = w.imageFiles ∧
      (afterInput w r).shuffledIndices = w.shuffledIndices ∧
      (afterInput w r).currentShuffleIndex = w.currentShuffleIndex ∧
      (afterInput w r).draws = w.draws) ∧
    ((afterInput w r).fatalError = false ∧ (afterInput w r).currentState = STATE_SLIDESHOW ∧
        (afterInput w r).imageFiles ≠ [] ∧ (afterInput w r).showingMessage = false ∧
        (afterInput w r).slideshowInterval
          ≤ usub r.slideCheck (afterInput w r).lastImageChange →
      loop w r = (getNextRandomImage (afterInput w r)).map
        fun p => displayImage p.2 p.1 r.slideImage) ∧
    (¬ ((afterInput w r).fatalError = false ∧ (afterInput w r).currentState = STATE_SLIDESHOW ∧
        (afterInput w r).imageFiles ≠ [] ∧ (afterInput w r).showingMessage = false ∧
        (afterInput w r).slideshowInterval
          ≤ usub r.slideCheck (afterInput w r).lastImageChange) →
      loop w r = some (afterInput w r)) ∧
    ((afterInput w r).showingMessage = true ∨ (afterInput w r).currentState ≠ STATE_SLIDESHOW ∨
        (afterInput w r).imageFiles = [] →
      loop w r = some (afterInput w r) ∧
      (afterInput w r).shuffledIndices = w.shuffledIndices ∧
      (afterInput w r).currentShuffleIndex = w.currentShuffleIndex ∧
      (afterInput w r).draws = w.draws) := by
  have hs : KeepsSequencer w (afterInput w r) :=
    seq_trans (seq_processButtonInput w r) (seq_expireNotice _ r)
  have hl : loop w r = advanceSlideshow (afterInput w r) r := rfl
  refine ⟨⟨hs.images, hs.order, hs.cursor, hs.draws⟩, ?_, ?_, ?_⟩
  · intro h
    rw [hl, advanceSlideshow_due _ r h]
  · intro h
    rw [hl, advanceSlideshow_idle _ r h]
  · intro h
    refine ⟨?_, hs.order, hs.cursor, hs.draws⟩
    rw [hl, advanceSlideshow_idle _ r]
    rintro ⟨_, h2, h3, h4, _⟩
    rcases h with h | h | h
    · rw [h4] at h
      cases h
    · exact h h2
    · exact h3 h

/-- C16 after start-up (interval 300000 ms, image shown at 900): the pass at
400000 calls the sequencer, at cursor 1, and displays image 0; the pass at 1000
does not, and a pass in which a long press puts up its notice does not either. -/
theorem auto_advance_witness :
    loop started (readsAt HIGH 400000)
      = (getNextRandomImage (afterInput started (readsAt HIGH 400000))).map
        (fun p => displayImage p.2 p.1 (readsAt HIGH 400000).slideImage) ∧
    (loop started (readsAt HIGH 400000)).map (fun v => v.currentShuffleIndex) = some 2 ∧
    loop started (readsAt HIGH 1000) = some (afterInput started (readsAt HIGH 1000)) ∧
    (afterInput started (readsAt HIGH 1000)).currentShuffleIndex = 1 ∧
    loop (runTicks started firstNotice) (readsAt LOW 400000)
      = some (afterInput (runTicks started firstNotice) (readsAt LOW 400000)) :=
  ⟨(auto_advance started (readsAt HIGH 400000)).2.1 (by decide),
    by decide,
    (auto_advance started (readsAt HIGH 1000)).2.2.1 (by decide),
    by decide,
    ((auto_advance (runTicks started firstNotice) (readsAt LOW 400000)).2.2.2
      (Or.inl (by decide))).1⟩

/-! ## The cursor of the sequencer -/

theorem reshuffle_length (w : World) :
    (reshuffle w).shuffledIndices.length = w.shuffledIndices.length :=
  (reshuffle_perm w).length_eq

theorem initRandomSlideshow_length (w : World) (h : w.imageFiles ≠ []) :
    (initRandomSlideshow w).shuffledIndices.length = w.imageFiles.length := by
  have := (initRandomSlideshow_spec w h).1.length_eq
  simpa using this

/-- What `setupImages` leaves when it finds images: one entry per image and the
cursor at 1, the first image being shown by `setup` itself. -/
theorem setupImages_sequencer (w : World) (i : SetupInputs)
    (h : (setupImages w i).imageFiles ≠ []) :
    (setupImages w i).shuffledIndices.length = (setupImages w i).imageFiles.length ∧
    (setupImages w i).currentShuffleIndex = 1 := by
  unfold setupImages at h ⊢
  dsimp only at h ⊢
  by_cases he : (!(findImageFiles w i).imageFiles.isEmpty) = true
  · rw [if_pos he] at h ⊢
    have hne : (findImageFiles w i).imageFiles ≠ [] := by
      intro hn
      rw [hn] at he
      cases he
    obtain ⟨_, hc, hi⟩ := initRandomSlideshow_spec _ hne
    have hlen := initRandomSlideshow_length _ hne
    have hd := seq_displayImage (hideLoadingScreen (initRandomSlideshow (findImageFiles w i)))
      ((hideLoadingScreen (initRandomSlideshow (findImageFiles w i))).shuffledIndices.getD
        (hideLoadingScreen (initRandomSlideshow (findImageFiles w i))).currentShuffleIndex 0)
      i.firstImage
    refine ⟨?_, ?_⟩
    · show (displayImage _ _ _).shuffledIndices.length = (displayImage _ _ _).imageFiles.length
      rw [hd.order, hd.images]
      show (initRandomSlideshow _).shuffledIndices.length = (initRandomSlideshow _).imageFiles.length
      rw [hlen, hi]
    · show (displayImage _ _ _).currentShuffleIndex + 1 = 1
      rw [hd.cursor]
      show (initRandomSlideshow _).currentShuffleIndex + 1 = 1
      rw [hc]
  · rw [if_neg he] at h
    have hn : (findImageFiles w i).imageFiles = [] := by
      cases hf : (findImageFiles w i).imageFiles with
      | nil => rfl
      | cons a l => rw [hf] at he; exact absurd rfl he
    exact absurd hn h

/-- The last two blocks of `setup` leave the image list and the sequencer alone. -/
theorem setup_tail (v : World) :
    (if (showFatalError v).showingLoading then hideLoadingScreen (showFatalError v)
      else showFatalError v).imageFiles = v.imageFiles ∧
    (if (showFatalError v).showingLoading then hideLoadingScreen (showFatalError v)
      else showFatalError v).shuffledIndices = v.shuffledIndices ∧
    (if (showFatalError v).showingLoading then hideLoadingScreen (showFatalError v)
      else showFatalError v).currentShuffleIndex = v.currentShuffleIndex := by
  have h1 : (showFatalError v).imageFiles = v.imageFiles ∧
      (showFatalError v).shuffledIndices = v.shuffledIndices ∧
      (showFatalError v).currentShuffleIndex = v.currentShuffleIndex := by
    unfold showFatalError
    split_ifs
    · exact ⟨rfl, rfl, rfl⟩
    · exact ⟨rfl, rfl, rfl⟩
  split_ifs
  · exact h1
  · exact h1

/-- After `setup` either no image was found, or the vector has one entry per
image and the cursor is 1. -/
theorem setup_sequencer (sd : SDCard) (entropy : Nat → Nat) (i : SetupInputs) :
    (setup (boot sd entropy) i).imageFiles = [] ∨
    ((setup (boot sd entropy) i).shuffledIndices.length
        = (setup (boot sd entropy) i).imageFiles.length ∧
      (setup (boot sd entropy) i).currentShuffleIndex = 1) := by
  unfold setup
  dsimp only
  by_cases hc : (initSDCard (emit { boot sd entropy with showingLoading := true }
      .loadingScreen) i).1 = true
  · rw [if_pos hc]
    obtain ⟨t1, t2, t3⟩ := setup_tail (setupImages (initSDCard
      (emit { boot sd entropy with showingLoading := true } .loadingScreen) i).2 i)
    rw [t1, t2, t3]
    by_cases hn : (setupImages (initSDCard
        (emit { boot sd entropy with showingLoading := true } .loadingScreen) i).2 i).imageFiles = []
    · exact Or.inl hn
    · exact Or.inr (setupImages_sequencer _ i hn)
  · rw [if_neg hc]
    left
    have hi : (initSDCard (emit { boot sd entropy with showingLoading := true }
        .loadingScreen) i).2 = emit { boot sd entropy with showingLoading := true }
          .loadingScreen := by
      unfold initSDCard at hc ⊢
      by_cases hk : (!i.cardOk) = true
      · rw [if_pos hk]
      · rw [if_neg hk] at hc
        exact absurd rfl hc
    rw [(setup_tail _).1, hi]
    rfl

theorem seqInv_getNextRandomImage (w w1 : World) (i : Int) (hinv : SeqInv w)
    (h : getNextRandomImage w = some (i, w1)) : SeqInv w1 := by
  unfold getNextRandomImage at h
  split_ifs at h with he
  · cases h; exact hinv
  · have hne : w.imageFiles ≠ [] := by
      intro hn
      rw [hn] at he
      exact he rfl
    rcases hinv with h0 | ⟨hlen, _⟩
    · exact absurd h0 hne
    · split at h
      · cases h
      · rename_i idx hget
        dsimp only at h
        have hlt : w.currentShuffleIndex < w.shuffledIndices.length := by
          rw [List.get?_eq_getElem?] at hget
          exact (List.getElem?_eq_some_iff.mp hget).1
        split_ifs at h with hwrap
        · cases h
          right
          refine ⟨?_, Or.inl ?_⟩
          · show (reshuffle _).shuffledIndices.length = w.imageFiles.length
            rw [reshuffle_length]
            exact hlen
          · show 0 < (reshuffle _).shuffledIndices.length
            rw [reshuffle_length]
            exact Nat.lt_of_le_of_lt (Nat.zero_le _) hlt
        · cases h
          right
          exact ⟨hlen, Or.inl (by simpa using hwrap)⟩

theorem seqInv_of_keeps {w w1 : World} (h : KeepsSequencer w w1) (hinv : SeqInv w) : SeqInv w1 := by
  unfold SeqInv at hinv ⊢
  rw [h.images, h.order, h.cursor]
  exact hinv

theorem seqInv_loop (w w1 : World) (r : Reads) (hinv : SeqInv w) (h : loop w r = some w1) :
    SeqInv w1 := by
  have h2 : SeqInv (afterInput w r) :=
    seqInv_of_keeps (seq_trans (seq_processButtonInput w r) (seq_expireNotice _ r)) hinv
  have hl : loop w r = advanceSlideshow (afterInput w r) r := rfl
  rw [hl] at h
  unfold advanceSlideshow at h
  split_ifs at h
  · split at h
    · cases h
    · rename_i i w3 hg
      cases h
      exact seqInv_of_keeps (seq_displayImage _ _ _) (seqInv_getNextRandomImage _ _ _ h2 hg)
  · cases h; exact h2
  · cases h; exact h2

/-- The sequencer invariant holds in every reachable state. -/
theorem seqInv_reachable (w : World) (h : Reachable w) : SeqInv w := by
  induction h with
  | start sd entropy i =>
    rcases setup_sequencer sd entropy i with h0 | ⟨h1, h2⟩
    · exact Or.inl h0
    · by_cases h0 : (setup (boot sd entropy) i).imageFiles = []
      · exact Or.inl h0
      · right
        refine ⟨h1, ?_⟩
        have hpos : 0 < (setup (boot sd entropy) i).imageFiles.length :=
          List.length_pos.mpr h0
        rw [h2, h1]
        by_cases hn : (setup (boot sd entropy) i).imageFiles.length = 1
        · exact Or.inr ⟨hn, rfl⟩
        · exact Or.inl (by omega)
  | tick w r w1 _ hl ih => exact seqInv_loop w w1 r ih hl
  | card w sd _ ih => exact ih

/-- A call whose cursor is not inside the vector reads out of bounds. -/
theorem getNextRandomImage_outOfBounds (w : World) (hne : w.imageFiles ≠ [])
    (hc : w.shuffledIndices.length ≤ w.currentShuffleIndex) : getNextRandomImage w = none := by
  have he : w.imageFiles.isEmpty = false := by
    cases hw : w.imageFiles with
    | nil => exact absurd hw hne
    | cons a l => rfl
  have hget : w.shuffledIndices.get? w.currentShuffleIndex = none := by
    rw [List.get?_eq_getElem?]
    exact List.getElem?_eq_none hc
  unfold getNextRandomImage
  rw [if_neg (by simp [he]), hget]

theorem loop_images (w w1 : World) (r : Reads) (h : loop w r = some w1) :
    w1.imageFiles = w.imageFiles := by
  have h2 := seq_trans (seq_processButtonInput w r) (seq_expireNotice _ r)
  unfold loop advanceSlideshow at h
  split_ifs at h
  · split at h
    · cases h
    · rename_i i w3 hg
      cases h
      rw [(seq_displayImage _ _ _).images, (seq_getNextRandomImage _ _ _ hg).1, h2.images]
  · cases h; exact h2.images
  · cases h; exact h2.images

/-- With a single image the cursor stays where `setup` left it, at 1, one past
the only entry: no pass of `loop` can complete a call of the sequencer. -/
theorem single_image_cursor (w : World) (h : Reachable w) :
    w.imageFiles.length = 1 → w.shuffledIndices.length = 1 ∧ w.currentShuffleIndex = 1 := by
  induction h with
  | start sd entropy i =>
    intro h1
    rcases setup_sequencer sd entropy i with h0 | ⟨h2, h3⟩
    · rw [h0] at h1
      cases h1
    · exact ⟨h2.trans h1, h3⟩
  | tick w r w1 _ hl ih =>
    intro h1
    have hi := loop_images w w1 r hl
    obtain ⟨a, b⟩ := ih (by rw [← hi]; exact h1)
    have hs : KeepsSequencer w (afterInput w r) :=
      seq_trans (seq_processButtonInput w r) (seq_expireNotice _ r)
    have hne : (afterInput w r).imageFiles ≠ [] := by
      rw [hs.images, ← hi]
      intro hn
      rw [hn] at h1
      cases h1
    have hnone : getNextRandomImage (afterInput w r) = none :=
      getNextRandomImage_outOfBounds _ hne (by rw [hs.order, hs.cursor, a, b])
    have hl2 : advanceSlideshow (afterInput w r) r = some w1 := hl
    unfold advanceSlideshow at hl2
    rw [hnone] at hl2
    split_ifs at hl2
    · cases hl2
      exact ⟨hs.order ▸ a, hs.cursor ▸ b⟩
    · cases hl2
      exact ⟨hs.order ▸ a, hs.cursor ▸ b⟩
  | card w sd _ ih => exact ih

/-- C17. The code on a card with a single image: `setup` shows
`shuffledIndices[0]` and advances the cursor to 1 without the wrap test that
`getNextRandomImage` has, so the first call of `getNextRandomImage`, on the
first pass of `loop` at which the interval has elapsed, reads
`shuffledIndices[1]` of a vector of length 1. This holds for every card with
exactly one image and in every state reachable from it. With two or more
images the cursor is below the length of the vector in every reachable state,
and without images the call returns 0 and reads nothing. -/
theorem single_image_reads_out_of_bounds :
    ((setup (boot sampleCard sampleEntropy) singleImage).imageFiles = ["/a.jpg"] ∧
      (setup (boot sampleCard sampleEntropy) singleImage).shuffledIndices = [0] ∧
      (setup (boot sampleCard sampleEntropy) singleImage).currentShuffleIndex = 1 ∧
      (getNextRandomImage (setup (boot sampleCard sampleEntropy) singleImage)).isNone = true ∧
      (loop (setup (boot sampleCard sampleEntropy) singleImage) (readsAt HIGH 400000)).isNone
        = true) ∧
    (∀ w : World, Reachable w → w.imageFiles.length = 1 →
      w.shuffledIndices.length = 1 ∧ w.currentShuffleIndex = 1 ∧ getNextRandomImage w = none) ∧
    (∀ w : World, Reachable w → 2 ≤ w.imageFiles.length →
      w.shuffledIndices.length = w.imageFiles.length ∧
      w.currentShuffleIndex < w.shuffledIndices.length ∧
      (getNextRandomImage w).isSome = true) ∧
    (∀ w : World, w.imageFiles = [] → getNextRandomImage w = some (0, w)) := by
  refine ⟨by decide, ?_, ?_, ?_⟩
  · intro w hw h1
    obtain ⟨a, b⟩ := single_image_cursor w hw h1
    refine ⟨a, b, getNextRandomImage_outOfBounds w ?_ (by rw [a, b])⟩
    intro hn
    rw [hn] at h1
    cases h1
  · intro w hw h2
    have hne : w.imageFiles ≠ [] := by
      intro hn
      rw [hn] at h2
      simp at h2
    have he : w.imageFiles.isEmpty = false := by
      cases hv : w.imageFiles with
      | nil => exact absurd hv hne
      | cons a l => rfl
    rcases seqInv_reachable w hw with h0 | ⟨hlen, hlt | ⟨h1, _⟩⟩
    · exact absurd h0 hne
    · refine ⟨hlen, hlt, ?_⟩
      rw [getNextRandomImage_inBounds w he hlt]
      rfl
    · omega
  · intro w hw
    unfold getNextRandomImage
    rw [hw]
    rfl

end PhotoFrame
